import Mathlib

/-!
Verification development for the FireResume AI core engine
(relevance scoring, ranking, layout allocation, ATS compliance checking,
JD match reporting).

The TypeScript sources are shallowly embedded:
  * JS numbers used for scores/ratios become `ℚ` (exact rationals);
    integer line counts become `Int`/`Nat`.
  * JS strings become `String`; `String.prototype.includes` becomes a
    recursive substring scan; `toLowerCase` maps `Char.toLower`.
  * `Record<string, number>` maps become functions `String → Option ℚ`
    (`m[k] || 0` becomes `(m k).getD 0`).
  * Imperative accumulation loops become folds / recursive walks.
-/

/- Core marks these rational primitives `@[irreducible]`, which blocks
`decide` on concrete rational arithmetic during elaboration; the kernel
itself unfolds them fine.  Restore default reducibility inside this file so
concrete evaluations can be settled by `decide`. -/
attribute [local semireducible] Rat.add Rat.mul Rat.inv Rat.sub Rat.ofScientific

/-! ## Basic string utilities (JS semantics) -/

/-- `needle.isPrefixOf hay || scan the tail`: JS `hay.includes(needle)`
on character lists.  The empty needle is found everywhere, as in JS. -/
def listContains (hay needle : List Char) : Bool :=
  match hay with
  | [] => needle.isEmpty
  | _ :: t => needle.isPrefixOf hay || listContains t needle

/-- JS `hay.includes(needle)`. -/
def strContains (hay needle : String) : Bool :=
  listContains hay.data needle.data

/-- JS `s.toLowerCase()` (character-wise lowering). -/
def lowerStr (s : String) : String :=
  ⟨s.data.map Char.toLower⟩

/-- JS array join with a single-space separator. -/
def joinSpace : List String → String
  | [] => ""
  | [s] => s
  | s :: rest => s ++ " " ++ joinSpace rest

/-- JS `Math.round` on an exact rational: round half toward `+∞`. -/
def jsRound (q : ℚ) : Int := ⌊q + 1/2⌋

/-- JS falsiness of an optional string: `undefined` or `""`. -/
def jsStrFalsy : Option String → Bool
  | none => true
  | some s => s.isEmpty

/-- JS `s.trim()`: strip whitespace from both ends. -/
def jsTrim (s : String) : String :=
  ⟨((s.data.dropWhile Char.isWhitespace).reverse.dropWhile Char.isWhitespace).reverse⟩

/-! ## Data model (src/types/fireresume-ai.ts) -/

structure ContactInfo where
  fullName : String
  email : String
  phone : Option String
  deriving DecidableEq, Repr

structure Experience where
  id : String
  title : String
  company : String
  startDate : String
  endDate : String
  bullets : List String
  deriving DecidableEq, Repr

structure Project where
  id : String
  title : String
  techStack : List String
  link : Option String
  bullets : List String
  deriving DecidableEq, Repr

structure Education where
  id : String
  degree : String
  institution : String
  graduationDate : String
  deriving DecidableEq, Repr

structure SkillCategory where
  category : String
  skills : List String
  deriving DecidableEq, Repr

structure SkillCluster where
  category : String
  skills : List String
  deriving DecidableEq, Repr

structure ImpactTheme where
  theme : String
  keywords : List String
  weight : ℚ
  deriving DecidableEq, Repr

structure JDAnalysis where
  jobTitle : String
  roleType : String
  seniorityLevel : String
  domain : String
  skillClusters : List SkillCluster
  primaryKeywords : List String
  secondaryKeywords : List String
  impactThemes : List ImpactTheme
  deriving DecidableEq, Repr

structure ResumeData where
  contact : ContactInfo
  summary : Option String
  experiences : List Experience
  projects : List Project
  education : List Education
  skills : List SkillCategory
  deriving DecidableEq, Repr

/-- `Record<string, number>` with JS `m[k] || 0` lookups modelled through
`Option`. -/
structure RelevanceMap where
  experiences : String → Option ℚ
  projects : String → Option ℚ
  skills : String → Option ℚ
  overallMatch : ℚ

structure BulletRewrite where
  original : String
  rewritten : String
  keywordsIncluded : List String
  hasMetric : Bool
  deriving DecidableEq, Repr

structure GeneratedExperience where
  id : String
  title : String
  company : String
  startDate : String
  endDate : String
  bullets : List String
  relevanceScore : Option ℚ
  rewrittenBullets : List BulletRewrite
  includedInResume : Bool
  deriving DecidableEq, Repr

structure GeneratedProject where
  id : String
  title : String
  techStack : List String
  link : Option String
  bullets : List String
  relevanceScore : Option ℚ
  rewrittenBullets : List BulletRewrite
  includedInResume : Bool
  deriving DecidableEq, Repr

structure GeneratedResume where
  contact : ContactInfo
  summary : Option String
  experiences : List GeneratedExperience
  projects : List GeneratedProject
  education : List Education
  skills : List SkillCategory
  deriving DecidableEq, Repr

inductive Severity where
  | error
  | warning
  | info
  deriving DecidableEq, Repr

structure ATSRule where
  id : String
  name : String
  description : String
  severity : Severity
  deriving DecidableEq, Repr

structure ATSViolation where
  rule : ATSRule
  suggestion : Option String
  location : Option String
  deriving DecidableEq, Repr

structure ATSReport where
  passed : Bool
  score : Int
  violations : List ATSViolation
  warnings : List ATSViolation
  checkedRules : List ATSRule
  deriving DecidableEq, Repr

inductive SectionType where
  | header
  | summary
  | skills
  | experience
  | projects
  | education
  deriving DecidableEq, Repr

structure LayoutItem where
  id : String
  bulletCount : Nat
  deriving DecidableEq, Repr

structure LayoutSection where
  type : SectionType
  allocatedLines : Int
  items : Option (List LayoutItem)
  deriving DecidableEq, Repr

inductive CompressionLevel where
  | none
  | light
  | moderate
  | aggressive
  deriving DecidableEq, Repr

structure LayoutPlan where
  pageCount : Int
  sections : List LayoutSection
  totalLines : Int
  compressionLevel : CompressionLevel
  deriving DecidableEq, Repr

inductive SummaryLength where
  | short
  | medium
  | long
  deriving DecidableEq, Repr

structure IncludeSections where
  summary : Bool
  skills : Bool
  experience : Bool
  projects : Bool
  education : Bool
  deriving DecidableEq, Repr

structure ResumeConfig where
  pageCount : Int
  includeSections : IncludeSections
  maxBulletsPerExperience : Nat
  maxProjects : Nat
  summaryLength : SummaryLength
  deriving DecidableEq, Repr

structure KeywordCoverage where
  keyword : String
  found : Bool
  locations : List String
  importance : String
  deriving DecidableEq, Repr

/-! ## ATS compliance checker (src/lib/fireresume-ai/ats-compliance.ts) -/

namespace AtsCompliance

/-- The fixed rule catalogue `ATS_RULES`. -/
def ATS_RULES : List ATSRule :=
  [ ⟨"contact-email", "Email Required",
      "Resume must include a valid email address", Severity.error⟩,
    ⟨"contact-phone", "Phone Recommended",
      "Including a phone number improves ATS compatibility", Severity.warning⟩,
    ⟨"contact-name", "Full Name Required",
      "Resume must include full name at the top", Severity.error⟩,
    ⟨"has-experience", "Work Experience",
      "Resume should have work experience section", Severity.warning⟩,
    ⟨"has-skills", "Skills Section",
      "Resume should have skills section for ATS keyword matching", Severity.warning⟩,
    ⟨"has-education", "Education Section",
      "Include education section if relevant", Severity.info⟩,
    ⟨"bullet-count", "Bullet Count",
      "Each experience should have 2-4 bullet points", Severity.warning⟩,
    ⟨"bullet-metrics", "Quantified Achievements",
      "Bullet points should include metrics (numbers, percentages)", Severity.info⟩,
    ⟨"bullet-action-verbs", "Action Verbs",
      "Bullets should start with strong action verbs", Severity.info⟩,
    ⟨"summary-optional", "Summary Section",
      "Summary is optional - strong experience sections can stand alone", Severity.info⟩,
    ⟨"date-format", "Standard Date Format",
      "Dates should use Month Year format (e.g., May 2023)", Severity.warning⟩,
    ⟨"consistent-dates", "Consistent Dates",
      "All dates should use the same format", Severity.info⟩,
    ⟨"no-special-chars", "No Special Characters",
      "Avoid special characters that may confuse ATS parsers", Severity.warning⟩,
    ⟨"no-images", "No Images",
      "Resume should not contain images, icons, or graphics", Severity.error⟩,
    ⟨"single-column", "Single Column Layout",
      "Resume uses single column layout for ATS compatibility", Severity.error⟩,
    ⟨"text-based", "Text-Based Content",
      "All content must be actual text, not embedded as graphics", Severity.error⟩,
    ⟨"standard-fonts", "Standard Fonts",
      "Using ATS-safe fonts (Times New Roman, Arial, Helvetica)", Severity.info⟩,
    ⟨"standard-sections", "Standard Section Headings",
      "Using standard section names (Experience, Education, Skills)", Severity.info⟩,
    ⟨"keywords-in-experience", "Keywords in Experience",
      "JD keywords should appear in experience bullets", Severity.warning⟩,
    ⟨"keywords-in-skills", "Keywords in Skills",
      "JD keywords should appear in skills section", Severity.warning⟩,
    ⟨"no-keyword-stuffing", "No Keyword Stuffing",
      "Keywords should appear naturally, not repeated excessively", Severity.warning⟩,
    ⟨"links-text-based", "Text-Based Links",
      "URLs should be written in full, not hidden behind hyperlinks", Severity.info⟩,
    ⟨"valid-linkedin", "Valid LinkedIn URL",
      "LinkedIn URL should be in standard format", Severity.info⟩ ]

/-- `ATS_RULES.find((r) => r.id === id)!` -/
def findRule (id : String) : ATSRule :=
  (ATS_RULES.find? (fun r => decide (r.id = id))).getD ⟨id, "", "", Severity.info⟩

/-- `hasProblematicSpecialChars`: the closed character set tested by the
source regex. -/
def problematicChars : List Char :=
  ['│', '║', '┃', '┊', '┋', '┆', '┇', '▪', '▫', '►', '◄', '•', '·', '∙']

def hasProblematicSpecialChars (text : String) : Bool :=
  text.data.any (fun c => problematicChars.contains c)

/-- `[,\s]*` then exactly four digits to the end of the string. -/
def dateSepDigits (cs : List Char) : Bool :=
  let t := cs.dropWhile (fun c => decide (c = ',') || c.isWhitespace)
  decide (t.length = 4) && t.all (fun c => c.isDigit)

/-- Month name followed by `[,\s]*\d{4}$`. -/
def monthPat (s : List Char) (pat : String) : Bool :=
  pat.data.isPrefixOf s && dateSepDigits (s.drop pat.length)

/-- The month alternatives of the source regex: short form plus the optional
long form (`Jan(?:uary)?` etc.; `May` has no long form). -/
def monthForms : List (String × String) :=
  [("jan", "january"), ("feb", "february"), ("mar", "march"),
   ("apr", "april"), ("may", "may"), ("jun", "june"),
   ("jul", "july"), ("aug", "august"), ("sep", "september"),
   ("oct", "october"), ("nov", "november"), ("dec", "december")]

/-- `isStandardDateFormat`: the source regex
`^(Month)[,\s]*\d{4}$|^Present$|^Current$|^\d{4}$` with the `i` flag,
applied to `date.trim()`.  Case-insensitivity is modelled by lowering the
input and matching lower-case patterns. -/
def isStandardDateFormat (date : String) : Bool :=
  let s := (lowerStr (jsTrim date)).data
  monthForms.any (fun mf => monthPat s mf.2 || monthPat s mf.1)
    || decide (s = [ 'p', 'r', 'e', 's', 'e', 'n', 't' ])
    || decide (s = [ 'c', 'u', 'r', 'r', 'e', 'n', 't' ])
    || (decide (s.length = 4) && s.all (fun c => c.isDigit))

/-- The closed action-verb list from the source. -/
def actionVerbs : List String :=
  [ "achieved", "accelerated", "accomplished", "acquired", "administered", "advanced", "analyzed", "applied",
    "architected", "assessed", "automated", "balanced", "built", "calculated", "captured", "championed",
    "coached", "collaborated", "communicated", "completed", "conducted", "configured", "consolidated", "constructed",
    "consulted", "contributed", "controlled", "converted", "coordinated", "created", "cultivated", "customized",
    "decreased", "defined", "delivered", "demonstrated", "deployed", "designed", "developed", "devised",
    "diagnosed", "directed", "discovered", "documented", "drove", "earned", "edited", "educated",
    "eliminated", "enabled", "engineered", "enhanced", "ensured", "established", "evaluated", "exceeded",
    "executed", "expanded", "expedited", "facilitated", "finalized", "formulated", "founded", "generated",
    "grew", "guided", "handled", "headed", "identified", "illustrated", "implemented", "improved",
    "increased", "influenced", "initiated", "innovated", "inspected", "installed", "instituted", "integrated",
    "introduced", "invented", "investigated", "launched", "led", "leveraged", "maintained", "managed",
    "maximized", "measured", "mentored", "migrated", "minimized", "modeled", "modernized", "modified",
    "monitored", "negotiated", "operated", "optimized", "orchestrated", "organized", "originated", "overhauled",
    "oversaw", "partnered", "performed", "piloted", "pioneered", "planned", "positioned", "prepared",
    "presented", "prioritized", "processed", "produced", "programmed", "projected", "promoted", "proposed",
    "provided", "published", "purchased", "raised", "reached", "realized", "received", "recommended",
    "reconciled", "recorded", "recruited", "redesigned", "reduced", "refined", "refactored", "reformed",
    "regulated", "remodeled", "reorganized", "repaired", "replaced", "reported", "represented", "researched",
    "resolved", "restored", "restructured", "reviewed", "revised", "revitalized", "saved", "scheduled",
    "secured", "selected", "served", "shaped", "simplified", "solved", "sourced", "spearheaded",
    "specialized", "specified", "standardized", "started", "streamlined", "strengthened", "structured", "succeeded",
    "supervised", "supported", "surpassed", "surveyed", "sustained", "synchronized", "systematized", "targeted",
    "taught", "tested", "tracked", "trained", "transferred", "transformed", "translated", "trimmed",
    "troubleshot", "unified", "upgraded", "utilized", "validated", "verified", "won", "wrote" ]

/-- `bullet.trim().split(/\s+/)[0]?.toLowerCase() || ""` then membership in
`actionVerbs`. -/
def startsWithActionVerb (bullet : String) : Bool :=
  let firstWord := lowerStr ⟨(jsTrim bullet).data.takeWhile (fun c => !c.isWhitespace)⟩
  actionVerbs.contains firstWord

/-- `hasMetric`: the source tests the regex
`\d+%|\$[\d,]+|\d+x|\d+\+|\d{1,3}(?:,\d{3})*|\d+`.
Because of the final bare an unanchored `\d+` alternative, the regex finds a
match exactly when the text contains a digit anywhere, or (via the
`\$[\d,]+` alternative) a `$` immediately followed by a digit or a comma. -/
def metricScan : List Char → Bool
  | [] => false
  | c :: rest =>
    c.isDigit
      || (decide (c = '$') && (match rest with
            | d :: _ => d.isDigit || decide (d = ',')
            | [] => false))
      || metricScan rest

def hasMetric (text : String) : Bool := metricScan text.data

/-- JS `text.split(/\s+/)`: split on maximal whitespace runs, keeping the
empty pieces that JS produces at the ends when the text starts or ends with
whitespace.  The accumulator is `some word` while a word is being read and
`none` while inside a whitespace run. -/
def splitWsAux : List Char → Option (List Char) → List (List Char)
  | [], some acc => [acc.reverse]
  | [], none => [[]]
  | c :: rest, some acc =>
    if c.isWhitespace then acc.reverse :: splitWsAux rest none
    else splitWsAux rest (some (c :: acc))
  | c :: rest, none =>
    if c.isWhitespace then splitWsAux rest none
    else splitWsAux rest (some [c])

def splitWs (s : String) : List String :=
  (splitWsAux s.data (some [])).map (fun l => ⟨l⟩)

/-- `hasKeywordStuffing`: a word of length `> 3` occurring more than five
times and with relative frequency above five percent of all words. -/
def hasKeywordStuffing (text : String) : Bool :=
  let words := splitWs (lowerStr text)
  let totalWords := words.length
  (words.filter (fun w => decide (w.length > 3))).any (fun w =>
    decide (words.count w > 5) &&
      decide ((words.count w : ℚ) / (totalWords : ℚ) > (0.05 : ℚ)))

/-- `addIssue` from the source: an issue is routed by its rule's severity
into the `violations` list (`error`) or the `warnings` list (`warning`);
`info`-severity issues are appended to neither list. -/
def addIssue (rule : ATSRule) (suggestion location : Option String) :
    List ATSViolation × List ATSViolation :=
  let violation : ATSViolation := ⟨rule, suggestion, location⟩
  if rule.severity = Severity.error then ([violation], [])
  else if rule.severity = Severity.warning then ([], [violation])
  else ([], [])

def includedExperiencesOf (resume : GeneratedResume) : List GeneratedExperience :=
  resume.experiences.filter (fun e => e.includedInResume)

def includedProjectsOf (resume : GeneratedResume) : List GeneratedProject :=
  resume.projects.filter (fun p => p.includedInResume)

/-- All rewritten bullets of included experiences and included projects. -/
def allIncludedBullets (resume : GeneratedResume) : List BulletRewrite :=
  ((includedExperiencesOf resume).map (fun e => e.rewrittenBullets)).flatten
    ++ ((includedProjectsOf resume).map (fun p => p.rewrittenBullets)).flatten

/-- `bulletsWithMetrics.length / Math.max(allBullets.length, 1)`. -/
def metricRate (resume : GeneratedResume) : ℚ :=
  (((allIncludedBullets resume).filter (fun b => hasMetric b.rewritten)).length : ℚ)
    / ((max (allIncludedBullets resume).length 1 : Nat) : ℚ)

/-- `bulletsWithActionVerbs.length / Math.max(allBullets.length, 1)`. -/
def actionVerbRate (resume : GeneratedResume) : ℚ :=
  (((allIncludedBullets resume).filter (fun b => startsWithActionVerb b.rewritten)).length : ℚ)
    / ((max (allIncludedBullets resume).length 1 : Nat) : ℚ)

/-- The concatenated résumé text used for the special-character and
keyword-stuffing checks (`filter(Boolean)` drops the absent summary and any
empty strings before joining). -/
def resumeTextOf (resume : GeneratedResume) : String :=
  joinSpace ((resume.summary.toList
      ++ (allIncludedBullets resume).map (fun b => b.rewritten)
      ++ (resume.skills.map (fun c => c.skills)).flatten).filter (fun s => !s.isEmpty))

/-- The date strings examined by the date-format check
(`filter(Boolean)` drops empty strings). -/
def allDatesOf (resume : GeneratedResume) : List String :=
  (((includedExperiencesOf resume).map (fun e => [e.startDate, e.endDate])).flatten
      ++ resume.education.map (fun e => e.graduationDate)).filter (fun d => !d.isEmpty)

/-- The full ordered issue list of the comprehensive checker: each `addIssue`
call site of the source, in source order, with its guarding condition. -/
def issuesOf (resume : GeneratedResume) : List (List ATSViolation × List ATSViolation) :=
  let includedExperiences := includedExperiencesOf resume
  let resumeText := resumeTextOf resume
  let invalidDates := (allDatesOf resume).filter (fun d => !isStandardDateFormat d)
  [ (if resume.contact.email.isEmpty then
        addIssue (findRule ("contact-email")) (some ("Add a professional email address")) none
      else ([], [])),
      (if jsStrFalsy resume.contact.phone then
        addIssue (findRule ("contact-phone")) (some ("Consider adding a phone number")) none
      else ([], [])),
      (if resume.contact.fullName.isEmpty || decide (resume.contact.fullName.length < 2) then
        addIssue (findRule ("contact-name")) (some ("Include your full name")) none
      else ([], [])),
      (if decide (includedExperiences.length = 0) then
        addIssue (findRule ("has-experience")) (some ("Add work experience section")) none
      else ([], [])),
      (if decide (resume.skills.length = 0)
          || decide ((resume.skills.map (fun c => c.skills)).flatten.length = 0) then
        addIssue (findRule ("has-skills")) (some ("Add skills section with relevant keywords")) none
      else ([], [])) ]
    ++ includedExperiences.map (fun exp =>
        if decide (exp.rewrittenBullets.length < 2) then
          addIssue (findRule ("bullet-count"))
            (some ("Add more bullet points to \"" ++ exp.title ++ "\" role"))
            (some ("experience." ++ exp.id))
        else if decide (exp.rewrittenBullets.length > 5) then
          addIssue (findRule ("bullet-count"))
            (some ("Consider reducing bullets for \"" ++ exp.title ++ "\" role"))
            (some ("experience." ++ exp.id))
        else ([], []))
    ++ [ (if decide (metricRate resume < (0.4 : ℚ)) then
          addIssue (findRule ("bullet-metrics"))
            (some ("Only " ++ toString (jsRound (metricRate resume * 100))
              ++ "% of bullets have metrics. Add more quantified achievements."))
            none
        else ([], [])),
        (if decide (actionVerbRate resume < (0.8 : ℚ)) then
          addIssue (findRule ("bullet-action-verbs"))
            (some ("Start more bullet points with strong action verbs")) none
        else ([], [])),
        (if decide (invalidDates.length > 0) then
          addIssue (findRule ("date-format"))
            (some ("Use standard date format (e.g., \"May 2023\"). Found: "
              ++ (invalidDates.head?.getD "")))
            none
        else ([], [])),
        (if hasProblematicSpecialChars resumeText then
          addIssue (findRule ("no-special-chars"))
            (some ("Remove special characters that may confuse ATS parsers")) none
        else ([], [])),
        (if hasKeywordStuffing resumeText then
          addIssue (findRule ("no-keyword-stuffing"))
            (some ("Reduce repetition of keywords. Use synonyms or rephrase.")) none
        else ([], [])) ]

/-- The comprehensive checker's `violations` list: the error-severity issues,
in `addIssue` call order. -/
def violationsOf (resume : GeneratedResume) : List ATSViolation :=
  ((issuesOf resume).map (fun i => i.1)).flatten

/-- The comprehensive checker's `warnings` list: the warning-severity issues,
in `addIssue` call order. -/
def warningsOf (resume : GeneratedResume) : List ATSViolation :=
  ((issuesOf resume).map (fun i => i.2)).flatten

/-- The score accumulation of the comprehensive checker: start at 100,
subtract 20 per error-severity violation and 5 per warning-severity warning,
clamp into `[0, 100]`. -/
def scoreOf (violations warnings : List ATSViolation) : Int :=
  let score1 := violations.foldl
    (fun s v => if v.rule.severity = Severity.error then s - 20 else s) (100 : Int)
  let score2 := warnings.foldl
    (fun s w => if w.rule.severity = Severity.warning then s - 5 else s) score1
  max 0 (min 100 score2)

/-- Comprehensive ATS compliance check (`checkATSCompliance` in
ats-compliance.ts). -/
def checkATSCompliance (resume : GeneratedResume) : ATSReport :=
  { passed := decide (((violationsOf resume).filter
        (fun v => decide (v.rule.severity = Severity.error))).length = 0),
    score := scoreOf (violationsOf resume) (warningsOf resume),
    violations := violationsOf resume,
    warnings := warningsOf resume,
    checkedRules := ATS_RULES }

end AtsCompliance

/-! ## Resume generation engine (src/lib/fireresume-ai/generator.ts) -/

/-- JS array join with a comma-space separator. -/
def joinComma : List String → String
  | [] => ""
  | [s] => s
  | s :: rest => s ++ ", " ++ joinComma rest

namespace Generator

/-- `[...primaryKeywords, ...secondaryKeywords].map(k => k.toLowerCase())`. -/
def allKeywordsOf (jdAnalysis : JDAnalysis) : List String :=
  (jdAnalysis.primaryKeywords ++ jdAnalysis.secondaryKeywords).map (fun k => lowerStr k)

/-- `skillClusters.flatMap(c => c.skills.map(s => s.toLowerCase()))`. -/
def skillKeywordsOf (jdAnalysis : JDAnalysis) : List String :=
  (jdAnalysis.skillClusters.map (fun c => c.skills.map (fun s => lowerStr s))).flatten

/-- `calculateExperienceRelevance`: title bonus, keyword-density score,
impact-theme bonus, capped at 100. -/
def calculateExperienceRelevance (experience : Experience) (jdAnalysis : JDAnalysis) : ℚ :=
  let allKeywords := allKeywordsOf jdAnalysis
  let skillKeywords := skillKeywordsOf jdAnalysis
  let titleLower := lowerStr experience.title
  let roleTypeLower := lowerStr jdAnalysis.roleType
  let score1 : ℚ :=
    if strContains titleLower roleTypeLower || strContains roleTypeLower titleLower then 20 else 0
  let allBullets := lowerStr (joinSpace experience.bullets)
  let keywordMatches :=
    ((allKeywords ++ skillKeywords).filter (fun keyword => strContains allBullets keyword)).length
  let keywordScore :=
    min 40 (((keywordMatches : ℚ) / ((max allKeywords.length 1 : Nat) : ℚ)) * 60)
  let score2 := score1 + keywordScore
  let score3 := jdAnalysis.impactThemes.foldl (fun s theme =>
    theme.keywords.foldl (fun s2 keyword =>
      if strContains allBullets (lowerStr keyword) then s2 + 5 * theme.weight else s2) s) score2
  min score3 100

/-- `calculateProjectRelevance`: tech-stack score, keyword-density score,
link bonus, capped at 100.  (`if (project.link)` is JS-truthy: an absent or
empty link earns no bonus.) -/
def calculateProjectRelevance (project : Project) (jdAnalysis : JDAnalysis) : ℚ :=
  let allKeywords := allKeywordsOf jdAnalysis
  let skillKeywords := skillKeywordsOf jdAnalysis
  let techStackLower := project.techStack.map (fun t => lowerStr t)
  let techMatches :=
    (techStackLower.filter (fun tech =>
      skillKeywords.contains tech || allKeywords.contains tech)).length
  let techScore :=
    min 50 (((techMatches : ℚ) / ((max project.techStack.length 1 : Nat) : ℚ)) * 70)
  let allBullets := lowerStr (joinSpace project.bullets)
  let keywordMatches :=
    ((allKeywords ++ skillKeywords).filter (fun keyword => strContains allBullets keyword)).length
  let keywordScore :=
    min 30 (((keywordMatches : ℚ) / ((max allKeywords.length 1 : Nat) : ℚ)) * 40)
  let linkBonus : ℚ := if !jsStrFalsy project.link then 10 else 0
  min (techScore + keywordScore + linkBonus) 100

/-- Skill scoring from `mapJDToProfile`: binary 100/0 membership of the
lower-cased skill token in the flattened, lower-cased JD skill clusters. -/
def skillScore (skill : String) (jdAnalysis : JDAnalysis) : ℚ :=
  if (skillKeywordsOf jdAnalysis).contains (lowerStr skill) then 100 else 0

/-- `relevanceMap.experiences[e.id] || 0`. -/
def expScoreOf (relevanceMap : RelevanceMap) (e : Experience) : ℚ :=
  (relevanceMap.experiences e.id).getD 0

/-- `relevanceMap.projects[p.id] || 0`. -/
def projScoreOf (relevanceMap : RelevanceMap) (p : Project) : ℚ :=
  (relevanceMap.projects p.id).getD 0

/-- `rankExperiences`: `[...experiences].sort((a, b) => scoreB - scoreA)`.
ECMAScript `Array.prototype.sort` is required to be stable; with this
consistent comparator the result is exactly a stable descending sort by
score, which `List.mergeSort` implements. -/
def rankExperiences (experiences : List Experience) (relevanceMap : RelevanceMap) :
    List Experience :=
  experiences.mergeSort (fun a b =>
    decide (expScoreOf relevanceMap b ≤ expScoreOf relevanceMap a))

/-- `rankProjects`: same stable descending sort over project scores. -/
def rankProjects (projects : List Project) (relevanceMap : RelevanceMap) :
    List Project :=
  projects.mergeSort (fun a b =>
    decide (projScoreOf relevanceMap b ≤ projScoreOf relevanceMap a))

/-! ### Layout allocation -/

/-- Summary line tiers (SUMMARY_LINES_SHORT/MEDIUM/LONG). -/
def summaryLinesOf (config : ResumeConfig) : Int :=
  match config.summaryLength with
  | SummaryLength.short => 2
  | SummaryLength.medium => 3
  | SummaryLength.long => 4

/-- `Math.min(SKILLS_LINES_BASE + Math.floor(skills.length / 2), 6)`. -/
def skillsLinesOf (resumeData : ResumeData) : Int :=
  min (3 + ((resumeData.skills.length / 2 : Nat) : Int)) 6

/-- Lines consumed by header, summary and skills before the
experience/projects walks. -/
def usedAfterSkillsOf (resumeData : ResumeData) (config : ResumeConfig) : Int :=
  6 + (if config.includeSections.summary then summaryLinesOf config else 0)
    + (if config.includeSections.skills then skillsLinesOf resumeData else 0)

/-- `educationLines = includeEducation ? educationCount * 3 : 0`. -/
def educationLinesOf (resumeData : ResumeData) (config : ResumeConfig) : Int :=
  if config.includeSections.education then (resumeData.education.length : Int) * 3 else 0

/-- `remainingLines = totalLines - usedLines - educationLines - 2`. -/
def remainingLinesOf (resumeData : ResumeData) (config : ResumeConfig) : Int :=
  config.pageCount * 55 - usedAfterSkillsOf resumeData config
    - educationLinesOf resumeData config - 2

/-- `Math.floor(remainingLines * 0.7)`; exact for the integer line counts
produced here, as floor division by 10 of seven times the value. -/
def expTargetOf (resumeData : ResumeData) (config : ResumeConfig) : Int :=
  Int.fdiv (remainingLinesOf resumeData config * 7) 10

/-- The greedy experience walk: admit each ranked entry whose cost
(2 header lines + `min(maxBullets, bullets) * 2`) still fits the target;
`break` at the first entry that would overflow. -/
def expWalk (maxBulletsPerExperience : Nat) (targetExperienceLines : Int) :
    List Experience → Int → List LayoutItem × Int
  | [], experienceLines => ([], experienceLines)
  | exp :: rest, experienceLines =>
    let maxBullets := min maxBulletsPerExperience exp.bullets.length
    let totalExpLines : Int := 2 + (maxBullets : Int) * 2
    if experienceLines + totalExpLines ≤ targetExperienceLines then
      let next := expWalk maxBulletsPerExperience targetExperienceLines rest
        (experienceLines + totalExpLines)
      (⟨exp.id, maxBullets⟩ :: next.1, next.2)
    else ([], experienceLines)

/-- The experience items/lines selected by `allocateLayout` (walk over the
ranked list against `floor(remainingLines * 0.7)` starting from 0). -/
def expAllocOf (resumeData : ResumeData) (config : ResumeConfig)
    (relevanceMap : RelevanceMap) : List LayoutItem × Int :=
  expWalk config.maxBulletsPerExperience (expTargetOf resumeData config)
    (rankExperiences resumeData.experiences relevanceMap) 0

/-- `usedLines` at the moment the project target is computed: header,
summary, skills, and the experience section if it was included. -/
def usedAfterExpOf (resumeData : ResumeData) (config : ResumeConfig)
    (relevanceMap : RelevanceMap) : Int :=
  usedAfterSkillsOf resumeData config
    + (if config.includeSections.experience then (expAllocOf resumeData config relevanceMap).2 else 0)

/-- `targetProjectLines = Math.min(remainingLines - (usedLines - HEADER_LINES),
maxProjects * 4)`. -/
def projTargetOf (resumeData : ResumeData) (config : ResumeConfig)
    (relevanceMap : RelevanceMap) : Int :=
  min (remainingLinesOf resumeData config
        - (usedAfterExpOf resumeData config relevanceMap - 6))
    ((config.maxProjects : Int) * 4)

/-- The greedy project walk: cost is 1 header line +
`min(2, bullets) * 2`; a project that does not fit is skipped (no `break`)
and the walk continues with the next ranked project. -/
def projWalk (targetProjectLines : Int) :
    List Project → Int → List LayoutItem × Int
  | [], projectLines => ([], projectLines)
  | proj :: rest, projectLines =>
    let maxBullets := min 2 proj.bullets.length
    let totalProjLines : Int := 1 + (maxBullets : Int) * 2
    if projectLines + totalProjLines ≤ targetProjectLines then
      let next := projWalk targetProjectLines rest (projectLines + totalProjLines)
      (⟨proj.id, maxBullets⟩ :: next.1, next.2)
    else
      projWalk targetProjectLines rest projectLines

/-- The project items/lines selected by `allocateLayout` (walk over the
ranked projects capped to `maxProjects`). -/
def projAllocOf (resumeData : ResumeData) (config : ResumeConfig)
    (relevanceMap : RelevanceMap) : List LayoutItem × Int :=
  projWalk (projTargetOf resumeData config relevanceMap)
    ((rankProjects resumeData.projects relevanceMap).take config.maxProjects) 0

/-- `allocateLayout`: greedy line-budget allocation. -/
def allocateLayout (resumeData : ResumeData) (config : ResumeConfig)
    (relevanceMap : RelevanceMap) : LayoutPlan :=
  let totalLines : Int := config.pageCount * 55
  let s1 : List LayoutSection × Int := ([⟨SectionType.header, 6, none⟩], 6)
  let s2 := if config.includeSections.summary then
      (s1.1 ++ [⟨SectionType.summary, summaryLinesOf config, none⟩],
        s1.2 + summaryLinesOf config)
    else s1
  let s3 := if config.includeSections.skills then
      (s2.1 ++ [⟨SectionType.skills, skillsLinesOf resumeData, none⟩],
        s2.2 + skillsLinesOf resumeData)
    else s2
  let rankedProjects := rankProjects resumeData.projects relevanceMap
  let s4 := if config.includeSections.experience then
      let ew := expAllocOf resumeData config relevanceMap
      (s3.1 ++ [⟨SectionType.experience, ew.2, some ew.1⟩], s3.2 + ew.2)
    else s3
  let s5 := if config.includeSections.projects && decide (rankedProjects.length > 0) then
      let pw := projAllocOf resumeData config relevanceMap
      if decide (pw.1.length > 0) then
        (s4.1 ++ [⟨SectionType.projects, pw.2, some pw.1⟩], s4.2 + pw.2)
      else s4
    else s4
  let s6 := if config.includeSections.education then
      (s5.1 ++ [⟨SectionType.education, educationLinesOf resumeData config, none⟩],
        s5.2 + educationLinesOf resumeData config)
    else s5
  let utilizationRate : ℚ := (s6.2 : ℚ) / (totalLines : ℚ)
  let compressionLevel :=
    if utilizationRate > (1.1 : ℚ) then CompressionLevel.aggressive
    else if utilizationRate > (1 : ℚ) then CompressionLevel.moderate
    else if utilizationRate > (0.95 : ℚ) then CompressionLevel.light
    else CompressionLevel.none
  { pageCount := config.pageCount,
    sections := s6.1,
    totalLines := s6.2,
    compressionLevel := compressionLevel }

/-! ### The generator's own ATS check -/

def contactRule : ATSRule :=
  ⟨"contact-info", "Contact Information", "Resume must have email and phone", Severity.error⟩

def experienceRule : ATSRule :=
  ⟨"has-experience", "Work Experience", "Resume should have work experience section", Severity.warning⟩

def skillsRule : ATSRule :=
  ⟨"has-skills", "Skills Section",
    "Resume should have a skills section for ATS keyword matching", Severity.warning⟩

def dateRule : ATSRule :=
  ⟨"date-format", "Date Format", "Dates should be in standard format (Month Year)", Severity.info⟩

def metricRule : ATSRule :=
  ⟨"bullet-metrics", "Quantified Achievements", "Bullets should include metrics where possible",
    Severity.info⟩

/-- The generator checker's `violations` list: only the missing-email check
pushes here. -/
def genViolationsOf (generatedResume : GeneratedResume) : List ATSViolation :=
  if generatedResume.contact.email.isEmpty then
    [⟨contactRule, some ("Add email address"), none⟩]
  else []

/-- The generator checker's `warnings` list: the missing-experience,
missing-skills and low-metric-rate checks push here (the last one pushes an
`info`-severity rule directly). -/
def genWarningsOf (generatedResume : GeneratedResume) : List ATSViolation :=
  let includedBullets :=
    ((generatedResume.experiences.filter (fun e => e.includedInResume)).map
      (fun e => e.rewrittenBullets)).flatten
  (if decide ((generatedResume.experiences.filter (fun e => e.includedInResume)).length = 0) then
    [⟨experienceRule, some ("Add at least one work experience"), none⟩]
  else [])
  ++ (if decide (generatedResume.skills.length = 0)
        || decide ((generatedResume.skills.map (fun c => c.skills)).flatten.length = 0) then
    [⟨skillsRule, some ("Add skills section with relevant keywords"), none⟩]
  else [])
  ++ (if decide (includedBullets.length > 0)
        && decide (((includedBullets.filter (fun b => b.hasMetric)).length : ℚ)
            / (includedBullets.length : ℚ) < (0.5 : ℚ)) then
    [⟨metricRule, some ("Add more quantified metrics to your bullet points"), none⟩]
  else [])

/-- The generator's `checkATSCompliance` (generator.ts): four checks, direct
pushes into `violations`/`warnings`, score `max(0, 100 - 20*errors - 5*warnings)`. -/
def checkATSCompliance (generatedResume : GeneratedResume) : ATSReport :=
  { passed := decide ((genViolationsOf generatedResume).length = 0),
    score := max 0 (100 - ((genViolationsOf generatedResume).length : Int) * 20
      - ((genWarningsOf generatedResume).length : Int) * 5),
    violations := genViolationsOf generatedResume,
    warnings := genWarningsOf generatedResume,
    checkedRules := [contactRule, experienceRule, skillsRule, dateRule, metricRule] }

/-! ### JD match report -/

/-- `[...primaryKeywords, ...secondaryKeywords]` (original casing). -/
def allJDKeywords (jdAnalysis : JDAnalysis) : List String :=
  jdAnalysis.primaryKeywords ++ jdAnalysis.secondaryKeywords

/-- The lower-cased haystack of all included résumé text: summary, included
experiences' rewritten bullets, included projects' rewritten bullets,
flattened skills, joined by single spaces (an absent summary joins as the
empty string, as JS `join` renders `undefined`). -/
def includedResumeText (generatedResume : GeneratedResume) : String :=
  lowerStr (joinSpace
    ([generatedResume.summary.getD ""]
      ++ ((generatedResume.experiences.filter (fun e => e.includedInResume)).map
            (fun e => e.rewrittenBullets.map (fun b => b.rewritten))).flatten
      ++ ((generatedResume.projects.filter (fun p => p.includedInResume)).map
            (fun p => p.rewrittenBullets.map (fun b => b.rewritten))).flatten
      ++ (generatedResume.skills.map (fun c => c.skills)).flatten))

/-- `skills.flatMap(c => c.skills).join(" ").toLowerCase()`. -/
def skillsTextOf (generatedResume : GeneratedResume) : String :=
  lowerStr (joinSpace ((generatedResume.skills.map (fun c => c.skills)).flatten))

/-- The coverage entry `generateJDMatchReport` builds for one keyword. -/
def keywordEntryOf (jdAnalysis : JDAnalysis) (generatedResume : GeneratedResume)
    (keyword : String) : KeywordCoverage :=
  let found := strContains (includedResumeText generatedResume) (lowerStr keyword)
  let importance :=
    if jdAnalysis.primaryKeywords.contains keyword then "required" else "preferred"
  let locations :=
    (match generatedResume.summary with
      | some s => if strContains (lowerStr s) (lowerStr keyword) then ["summary"] else []
      | none => [])
    ++ (if strContains (skillsTextOf generatedResume) (lowerStr keyword) then ["skills"] else [])
  ⟨keyword, found, locations, importance⟩

/-- Per-keyword coverage entries of `generateJDMatchReport`. -/
def keywordCoverageOf (jdAnalysis : JDAnalysis) (generatedResume : GeneratedResume) :
    List KeywordCoverage :=
  (allJDKeywords jdAnalysis).map (keywordEntryOf jdAnalysis generatedResume)

/-- The JD match report record (nested sub-records of the source flattened
into one record; the constant `roleMatch.inferred` echo of the JD analysis
is omitted). -/
structure JDMatchReport where
  alignmentScore : ℚ
  keywordCoverage : List KeywordCoverage
  coverageScore : Int
  matchedSkills : List String
  missingSkills : List String
  extraSkills : List String
  totalExperiences : Nat
  includedExperiences : Nat
  averageExperienceRelevance : Int
  totalProjects : Nat
  includedProjects : Nat
  averageProjectRelevance : Int
  suggestions : List String
  deriving DecidableEq, Repr

/-- `generateJDMatchReport`. -/
def generateJDMatchReport (resumeData : ResumeData) (jdAnalysis : JDAnalysis)
    (generatedResume : GeneratedResume) (relevanceMap : RelevanceMap) : JDMatchReport :=
  let keywordCoverage := keywordCoverageOf jdAnalysis generatedResume
  let coveredKeywords := (keywordCoverage.filter (fun k => k.found)).length
  let coverageScore := jsRound
    (((coveredKeywords : ℚ) / ((max (allJDKeywords jdAnalysis).length 1 : Nat) : ℚ)) * 100)
  let resumeSkills := (resumeData.skills.map (fun c => c.skills.map (fun s => lowerStr s))).flatten
  let jdSkills := (jdAnalysis.skillClusters.map (fun c => c.skills.map (fun s => lowerStr s))).flatten
  let matched := resumeSkills.filter (fun s => jdSkills.contains s)
  let missing := jdSkills.filter (fun s => !resumeSkills.contains s)
  let extra := resumeSkills.filter (fun s => !jdSkills.contains s)
  let includedExperiences := generatedResume.experiences.filter (fun e => e.includedInResume)
  let avgExperienceRelevance :=
    (includedExperiences.foldl (fun sum e => sum + e.relevanceScore.getD 0) 0)
      / ((max includedExperiences.length 1 : Nat) : ℚ)
  let includedProjects := generatedResume.projects.filter (fun p => p.includedInResume)
  let avgProjectRelevance :=
    (includedProjects.foldl (fun sum p => sum + p.relevanceScore.getD 0) 0)
      / ((max includedProjects.length 1 : Nat) : ℚ)
  let suggestions :=
    (if decide (coverageScore < 50) then
      [("Consider adding more JD keywords to your experience bullets")]
    else [])
    ++ (if decide (missing.length > 5) then
      [("Missing key skills: " ++ joinComma (missing.take 5) ++ ". Add if applicable.")]
    else [])
    ++ (if decide (avgExperienceRelevance < 50) then
      [("Consider emphasizing experiences more relevant to this role")]
    else [])
  { alignmentScore := relevanceMap.overallMatch,
    keywordCoverage := keywordCoverage,
    coverageScore := coverageScore,
    matchedSkills := matched,
    missingSkills := missing.take 10,
    extraSkills := extra.take 10,
    totalExperiences := resumeData.experiences.length,
    includedExperiences := includedExperiences.length,
    averageExperienceRelevance := jsRound avgExperienceRelevance,
    totalProjects := resumeData.projects.length,
    includedProjects := includedProjects.length,
    averageProjectRelevance := jsRound avgProjectRelevance,
    suggestions := suggestions }

end Generator

/-! ## Helper lemmas about the comprehensive checker -/

namespace AtsCompliance

theorem mem_addIssue_snd {w : ATSViolation} {r : ATSRule} {s l : Option String}
    (h : w ∈ (addIssue r s l).2) : w.rule = r ∧ r.severity = Severity.warning := by
  unfold addIssue at h
  split_ifs at h with h1 h2 <;> simp_all

theorem mem_issue_snd {w : ATSViolation} {c : Prop} [Decidable c] {r : ATSRule}
    {s l : Option String}
    (h : w ∈ (if c then addIssue r s l else (([], []) : List ATSViolation × List ATSViolation)).2) :
    w.rule = r ∧ r.severity = Severity.warning := by
  split at h
  · exact mem_addIssue_snd h
  · simp at h

/-- Every entry of the comprehensive checker's `warnings` list carries one of
the seven warning-severity rules that can reach it; in particular the
`info`-severity `bullet-metrics` and `bullet-action-verbs` issues never land
there. -/
theorem warnings_rules (resume : GeneratedResume) :
    ∀ w ∈ warningsOf resume,
      w.rule = findRule ("contact-phone") ∨ w.rule = findRule ("has-experience") ∨
      w.rule = findRule ("has-skills") ∨ w.rule = findRule ("bullet-count") ∨
      w.rule = findRule ("date-format") ∨ w.rule = findRule ("no-special-chars") ∨
      w.rule = findRule ("no-keyword-stuffing") := by
  intro w hw
  unfold warningsOf issuesOf at hw
  rw [List.mem_flatten] at hw
  obtain ⟨l, hl, hwl⟩ := hw
  rw [List.mem_map] at hl
  obtain ⟨issue, hiss, rfl⟩ := hl
  simp only [List.mem_append, List.mem_cons, List.mem_map, List.not_mem_nil, or_false] at hiss
  rcases hiss with ((h | h | h | h | h) | ⟨exp, _, h⟩) | (h | h | h | h | h) <;> subst h
  · exact absurd (mem_issue_snd hwl).2 (by decide)
  · exact Or.inl (mem_issue_snd hwl).1
  · exact absurd (mem_issue_snd hwl).2 (by decide)
  · exact Or.inr (Or.inl (mem_issue_snd hwl).1)
  · exact Or.inr (Or.inr (Or.inl (mem_issue_snd hwl).1))
  · split at hwl
    · exact Or.inr (Or.inr (Or.inr (Or.inl (mem_addIssue_snd hwl).1)))
    · split at hwl
      · exact Or.inr (Or.inr (Or.inr (Or.inl (mem_addIssue_snd hwl).1)))
      · simp at hwl
  · exact absurd (mem_issue_snd hwl).2 (by decide)
  · exact absurd (mem_issue_snd hwl).2 (by decide)
  · exact Or.inr (Or.inr (Or.inr (Or.inr (Or.inl (mem_issue_snd hwl).1))))
  · exact Or.inr (Or.inr (Or.inr (Or.inr (Or.inr (Or.inl (mem_issue_snd hwl).1)))))
  · exact Or.inr (Or.inr (Or.inr (Or.inr (Or.inr (Or.inr (mem_issue_snd hwl).1)))))


/-- Every entry of the comprehensive checker's `warnings` list has a
warning-severity rule. -/
theorem warnings_severity (resume : GeneratedResume) :
    ∀ w ∈ warningsOf resume, w.rule.severity = Severity.warning := by
  intro w hw
  rcases warnings_rules resume w hw with h | h | h | h | h | h | h <;> rw [h] <;> decide

/-- Generic evaluation of the imperative subtract-per-matching-entry fold. -/
theorem foldl_sub_if (p : ATSViolation → Prop) [DecidablePred p] (c : Int) :
    ∀ (l : List ATSViolation) (init : Int),
      l.foldl (fun s v => if p v then s - c else s) init
        = init - c * (((l.filter (fun v => decide (p v))).length : Nat) : Int) := by
  intro l
  induction l with
  | nil => simp
  | cons a t ih =>
    intro init
    by_cases h : p a <;> simp [h, ih] <;> ring

/-- The score formula of the spec: `clamp(100 - 20*errors - 5*warnings, 0, 100)`. -/
def atsScoreFormula (errorCount warningCount : Nat) : Int :=
  max 0 (min 100 (100 - 20 * (errorCount : Int) - 5 * (warningCount : Int)))

theorem scoreOf_eq (violations warnings : List ATSViolation) :
    scoreOf violations warnings
      = atsScoreFormula
          (violations.filter (fun v => decide (v.rule.severity = Severity.error))).length
          (warnings.filter (fun w => decide (w.rule.severity = Severity.warning))).length := by
  simp only [scoreOf]
  rw [foldl_sub_if (fun v => v.rule.severity = Severity.error) 20,
    foldl_sub_if (fun w => w.rule.severity = Severity.warning) 5]
  unfold atsScoreFormula
  ring_nf

end AtsCompliance

namespace AtsCompliance

theorem genViolations_filter_err (resume : GeneratedResume) :
    (Generator.genViolationsOf resume).filter
        (fun v => decide (v.rule.severity = Severity.error))
      = Generator.genViolationsOf resume := by
  unfold Generator.genViolationsOf
  split <;> rfl

end AtsCompliance

/-- Concrete résumé for claim C1: one included experience with three
rewritten bullets, none containing a digit or a dollar metric, so the
metric rate is `0 < 0.4`. -/
def metricCexExperience : GeneratedExperience :=
  { id := "e1", title := "Eng", company := "Acme",
    startDate := "May 2020", endDate := "Present", bullets := ["a", "b", "c"],
    relevanceScore := none,
    rewrittenBullets :=
      [⟨"a", "Led the team", [], false⟩,
       ⟨"b", "Built the app", [], false⟩,
       ⟨"c", "Shipped features", [], false⟩],
    includedInResume := true }

def metricCexResume : GeneratedResume :=
  { contact := ⟨"Bob", "b@x.co", some "1"⟩,
    summary := none,
    experiences := [metricCexExperience],
    projects := [],
    education := [],
    skills := [⟨"Tools", ["Git"]⟩] }

/-- C1: the claim is false on the code.  At this concrete résumé the
included-bullet metric rate is `0 < 0.4`, yet the comprehensive checker's
`warnings` list contains no warning referencing the `bullet-metrics` rule
(in fact it is empty: the `addIssue` call for the `info`-severity rule is
dropped). -/
theorem C1_counterexample :
    AtsCompliance.metricRate metricCexResume < (0.4 : ℚ)
    ∧ ∀ w ∈ (AtsCompliance.checkATSCompliance metricCexResume).warnings,
        w.rule.id ≠ "bullet-metrics" := by
  constructor
  · decide
  · decide

/-- C1 (amended): if the included-bullet metric rate is below 0.4 the
checker raises the `bullet-metrics` issue, but because that rule's severity
is `info` the issue handler appends it to neither list; the returned
report's `warnings` list therefore contains no warning referencing the
`bullet-metrics` rule. -/
theorem C1_no_bullet_metrics_warning (resume : GeneratedResume)
    (h : AtsCompliance.metricRate resume < (0.4 : ℚ)) :
    (∀ s l, AtsCompliance.addIssue (AtsCompliance.findRule ("bullet-metrics")) s l = ([], []))
    ∧ ∀ w ∈ (AtsCompliance.checkATSCompliance resume).warnings,
        w.rule.id ≠ "bullet-metrics" := by
  constructor
  · intro s l
    rfl
  · intro w hw
    rcases AtsCompliance.warnings_rules resume w hw with h1 | h1 | h1 | h1 | h1 | h1 | h1 <;>
      rw [h1] <;> decide

/-- Witness for C1 (amended) at the concrete résumé above. -/
theorem C1_no_bullet_metrics_warning_witness :
    AtsCompliance.metricRate metricCexResume < (0.4 : ℚ)
    ∧ ((∀ s l, AtsCompliance.addIssue (AtsCompliance.findRule ("bullet-metrics")) s l = ([], []))
      ∧ ∀ w ∈ (AtsCompliance.checkATSCompliance metricCexResume).warnings,
          w.rule.id ≠ "bullet-metrics") :=
  ⟨by decide, C1_no_bullet_metrics_warning metricCexResume (by decide)⟩

/-- C2: for both compliance checkers, `passed` is true exactly when the
report's `violations` list contains no violation whose rule severity is
`error`. -/
theorem C2_passed_iff_no_error_violations (resume : GeneratedResume) :
    ((AtsCompliance.checkATSCompliance resume).passed = true ↔
      ((AtsCompliance.checkATSCompliance resume).violations.filter
        (fun v => decide (v.rule.severity = Severity.error))).length = 0)
    ∧ ((Generator.checkATSCompliance resume).passed = true ↔
      ((Generator.checkATSCompliance resume).violations.filter
        (fun v => decide (v.rule.severity = Severity.error))).length = 0) := by
  constructor
  · exact decide_eq_true_iff
  · have hfilter := AtsCompliance.genViolations_filter_err resume
    show (Generator.checkATSCompliance resume).passed = true ↔
      ((Generator.genViolationsOf resume).filter
        (fun v => decide (v.rule.severity = Severity.error))).length = 0
    rw [hfilter]
    exact decide_eq_true_iff

/-- C3: both checkers' scores equal
`clamp(100 - 20 * errorViolations - 5 * warnings, 0, 100)`; the formula
always lies in `[0, 100]` and is monotonically non-increasing as violations
or warnings are added one at a time, so each report's score lies in
`[0, 100]`. -/
theorem C3_score_formula (resume : GeneratedResume) :
    ((AtsCompliance.checkATSCompliance resume).score
      = AtsCompliance.atsScoreFormula
          (((AtsCompliance.checkATSCompliance resume).violations.filter
            (fun v => decide (v.rule.severity = Severity.error))).length)
          ((AtsCompliance.checkATSCompliance resume).warnings.length))
    ∧ ((Generator.checkATSCompliance resume).score
      = AtsCompliance.atsScoreFormula
          (((Generator.checkATSCompliance resume).violations.filter
            (fun v => decide (v.rule.severity = Severity.error))).length)
          ((Generator.checkATSCompliance resume).warnings.length))
    ∧ (∀ e w : Nat,
        0 ≤ AtsCompliance.atsScoreFormula e w
        ∧ AtsCompliance.atsScoreFormula e w ≤ 100
        ∧ AtsCompliance.atsScoreFormula (e + 1) w ≤ AtsCompliance.atsScoreFormula e w
        ∧ AtsCompliance.atsScoreFormula e (w + 1) ≤ AtsCompliance.atsScoreFormula e w)
    ∧ (0 ≤ (AtsCompliance.checkATSCompliance resume).score
      ∧ (AtsCompliance.checkATSCompliance resume).score ≤ 100)
    ∧ (0 ≤ (Generator.checkATSCompliance resume).score
      ∧ (Generator.checkATSCompliance resume).score ≤ 100) := by
  have hforms : ∀ e w : Nat,
      0 ≤ AtsCompliance.atsScoreFormula e w
      ∧ AtsCompliance.atsScoreFormula e w ≤ 100
      ∧ AtsCompliance.atsScoreFormula (e + 1) w ≤ AtsCompliance.atsScoreFormula e w
      ∧ AtsCompliance.atsScoreFormula e (w + 1) ≤ AtsCompliance.atsScoreFormula e w := by
    intro e w
    unfold AtsCompliance.atsScoreFormula
    refine ⟨by omega, by omega, by omega, by omega⟩
  have hcomp : (AtsCompliance.checkATSCompliance resume).score
      = AtsCompliance.atsScoreFormula
          (((AtsCompliance.checkATSCompliance resume).violations.filter
            (fun v => decide (v.rule.severity = Severity.error))).length)
          ((AtsCompliance.checkATSCompliance resume).warnings.length) := by
    have hw : (AtsCompliance.warningsOf resume).filter
        (fun w => decide (w.rule.severity = Severity.warning))
        = AtsCompliance.warningsOf resume :=
      List.filter_eq_self.mpr (fun w hmem => by
        rw [decide_eq_true_iff]
        exact AtsCompliance.warnings_severity resume w hmem)
    show AtsCompliance.scoreOf (AtsCompliance.violationsOf resume)
        (AtsCompliance.warningsOf resume) = _
    rw [AtsCompliance.scoreOf_eq, hw]
    rfl
  have hgen : (Generator.checkATSCompliance resume).score
      = AtsCompliance.atsScoreFormula
          (((Generator.checkATSCompliance resume).violations.filter
            (fun v => decide (v.rule.severity = Severity.error))).length)
          ((Generator.checkATSCompliance resume).warnings.length) := by
    have hfilter := AtsCompliance.genViolations_filter_err resume
    show max 0 (100 - ((Generator.genViolationsOf resume).length : Int) * 20
        - ((Generator.genWarningsOf resume).length : Int) * 5)
      = AtsCompliance.atsScoreFormula
          (((Generator.genViolationsOf resume).filter
            (fun v => decide (v.rule.severity = Severity.error))).length)
          ((Generator.genWarningsOf resume).length)
    rw [hfilter]
    unfold AtsCompliance.atsScoreFormula
    omega
  refine ⟨hcomp, hgen, hforms, ?_, ?_⟩
  · rw [hcomp]
    exact ⟨(hforms _ _).1, (hforms _ _).2.1⟩
  · rw [hgen]
    exact ⟨(hforms _ _).1, (hforms _ _).2.1⟩

/-- C10: the `totalLines` field of every layout plan equals the sum of
`allocatedLines` over the plan's sections (the used-line tally, not the
page budget `pageCount * 55`). -/
theorem C10_totalLines_eq_sum (rd : ResumeData) (cfg : ResumeConfig) (rm : RelevanceMap) :
    (Generator.allocateLayout rd cfg rm).totalLines
      = ((Generator.allocateLayout rd cfg rm).sections.map (fun s => s.allocatedLines)).sum := by
  unfold Generator.allocateLayout
  dsimp only
  split_ifs <;> simp [List.sum_append] <;> ring

namespace Generator

/-- The layout item produced for an admitted experience. -/
def expItemOf (maxBullets : Nat) (e : Experience) : LayoutItem :=
  ⟨e.id, min maxBullets e.bullets.length⟩

/-- Line cost of an admitted experience: 2 header lines plus 2 lines per
kept bullet. -/
def expCost (maxBullets : Nat) (e : Experience) : Int :=
  2 + ((min maxBullets e.bullets.length : Nat) : Int) * 2

def expCostSum (maxBullets : Nat) (l : List Experience) : Int :=
  (l.map (expCost maxBullets)).sum

/-- The layout item produced for an admitted project. -/
def projItemOf (p : Project) : LayoutItem :=
  ⟨p.id, min 2 p.bullets.length⟩

/-- Line cost of an admitted project: 1 header line plus 2 lines per kept
bullet (at most two bullets). -/
def projCost (p : Project) : Int :=
  1 + ((min 2 p.bullets.length : Nat) : Int) * 2

/-- Unfolding equation for the cons case of the experience walk, phrased
with the named cost/item helpers. -/
theorem expWalk_cons (maxB : Nat) (target : Int) (e : Experience)
    (rest : List Experience) (lines : Int) :
    expWalk maxB target (e :: rest) lines =
      if lines + expCost maxB e ≤ target then
        (expItemOf maxB e :: (expWalk maxB target rest (lines + expCost maxB e)).1,
          (expWalk maxB target rest (lines + expCost maxB e)).2)
      else ([], lines) := by
  simp only [expWalk, expCost, expItemOf]

/-- The greedy experience walk admits exactly a prefix of the ranked list:
it keeps the items and line tally of the first `k` entries, every partial
tally stays within the target, and if it stopped before the end then the
next entry would overflow. -/
theorem expWalk_spec (maxB : Nat) (target : Int) :
    ∀ (l : List Experience) (lines : Int),
      ∃ k, k ≤ l.length
        ∧ (expWalk maxB target l lines).1 = (l.take k).map (expItemOf maxB)
        ∧ (expWalk maxB target l lines).2 = lines + expCostSum maxB (l.take k)
        ∧ (∀ j ≤ k, lines + expCostSum maxB (l.take j) ≤ max target lines)
        ∧ (k < l.length → target < lines + expCostSum maxB (l.take (k + 1))) := by
  intro l
  induction l with
  | nil =>
    intro lines
    refine ⟨0, Nat.le_refl 0, by simp [expWalk], by simp [expWalk, expCostSum], ?_, by simp⟩
    intro j hj
    interval_cases j
    simp [expCostSum]
  | cons e rest ih =>
    intro lines
    rw [expWalk_cons]
    by_cases hfit : lines + expCost maxB e ≤ target
    · rw [if_pos hfit]
      obtain ⟨k, hk, h1, h2, h3, h4⟩ := ih (lines + expCost maxB e)
      refine ⟨k + 1, Nat.succ_le_succ hk, ?_, ?_, ?_, ?_⟩
      · simp only [List.take_succ_cons, List.map_cons]
        rw [h1]
      · rw [h2]
        simp only [List.take_succ_cons, expCostSum, List.map_cons, List.sum_cons]
        ring
      · intro j hj
        match j with
        | 0 =>
          simp only [List.take_zero, expCostSum, List.map_nil, List.sum_nil, add_zero]
          exact le_max_right target lines
        | j' + 1 =>
          have hj' : j' ≤ k := Nat.le_of_succ_le_succ hj
          have hstep := h3 j' hj'
          have hmax : max target (lines + expCost maxB e) = target := max_eq_left hfit
          rw [hmax] at hstep
          calc lines + expCostSum maxB ((e :: rest).take (j' + 1))
              = (lines + expCost maxB e) + expCostSum maxB (rest.take j') := by
                simp only [List.take_succ_cons, expCostSum, List.map_cons, List.sum_cons]
                ring
            _ ≤ target := hstep
            _ ≤ max target lines := le_max_left target lines
      · intro hlen
        have hlen2 : k < rest.length := Nat.lt_of_succ_lt_succ hlen
        have hstop := h4 hlen2
        calc target < (lines + expCost maxB e) + expCostSum maxB (rest.take (k + 1)) := hstop
          _ = lines + expCostSum maxB ((e :: rest).take (k + 1 + 1)) := by
            simp only [List.take_succ_cons, expCostSum, List.map_cons, List.sum_cons]
            ring
    · rw [if_neg hfit]
      refine ⟨0, Nat.zero_le _, by simp, by simp [expCostSum], ?_, ?_⟩
      · intro j hj
        interval_cases j
        simp only [List.take_zero, expCostSum, List.map_nil, List.sum_nil, add_zero]
        exact le_max_right target lines
      · intro _
        simp only [List.take_succ_cons, List.take_zero, expCostSum, List.map_cons,
          List.map_nil, List.sum_cons, List.sum_nil]
        omega

/-- Unfolding equation for the cons case of the project walk. -/
theorem projWalk_cons (target : Int) (p : Project) (rest : List Project) (lines : Int) :
    projWalk target (p :: rest) lines =
      if lines + projCost p ≤ target then
        (projItemOf p :: (projWalk target rest (lines + projCost p)).1,
          (projWalk target rest (lines + projCost p)).2)
      else projWalk target rest lines := by
  simp only [projWalk, projCost, projItemOf]

/-- The project walk admits an in-order subset of its input (a non-fitting
project is skipped, not a stopping point), tallies exactly the admitted
costs, and never exceeds the target when it admits anything. -/
theorem projWalk_spec (target : Int) :
    ∀ (l : List Project) (lines : Int),
      ∃ s : List Project, s.Sublist l
        ∧ (projWalk target l lines).1 = s.map projItemOf
        ∧ (projWalk target l lines).2 = lines + (s.map projCost).sum
        ∧ (projWalk target l lines).2 ≤ max target lines := by
  intro l
  induction l with
  | nil =>
    intro lines
    exact ⟨[], List.Sublist.refl [], by simp [projWalk], by simp [projWalk],
      by simp [projWalk]⟩
  | cons p rest ih =>
    intro lines
    rw [projWalk_cons]
    by_cases hfit : lines + projCost p ≤ target
    · rw [if_pos hfit]
      obtain ⟨s, hsub, h1, h2, h3⟩ := ih (lines + projCost p)
      refine ⟨p :: s, List.Sublist.cons₂ p hsub, ?_, ?_, ?_⟩
      · simp only [List.map_cons]
        rw [h1]
      · rw [h2]
        simp only [List.map_cons, List.sum_cons]
        ring
      · have hmax : max target (lines + projCost p) = target := max_eq_left hfit
        rw [hmax] at h3
        exact le_trans h3 (le_max_left target lines)
    · rw [if_neg hfit]
      obtain ⟨s, hsub, h1, h2, h3⟩ := ih lines
      exact ⟨s, List.Sublist.cons p hsub, h1, h2, h3⟩

/-- When the experience section is enabled, `allocateLayout` emits an
experience section built exactly from the experience walk. -/
theorem exp_section_mem (rd : ResumeData) (cfg : ResumeConfig) (rm : RelevanceMap)
    (h : cfg.includeSections.experience = true) :
    (⟨SectionType.experience, (expAllocOf rd cfg rm).2, some (expAllocOf rd cfg rm).1⟩
      : LayoutSection) ∈ (allocateLayout rd cfg rm).sections := by
  unfold allocateLayout
  dsimp only
  rw [h]
  split_ifs <;> simp_all [List.mem_append]

end Generator

/-- C5 (amended): with the experience section enabled, `allocateLayout`
emits an experience section whose items are the first `k` ranked
experiences, each with `bulletCount = min(maxBulletsPerExperience,
bullets)`; every partial line tally (hence the section's allocated total)
stays at or below `max(floor(remainingLines * 0.7), 0)`, and the walk
stopped at the first entry that would overflow the target.  (The unamended
bound `allocated ≤ floor(remainingLines * 0.7)` fails when the target is
negative; see the counterexample.) -/
theorem C5_experience_walk_greedy (rd : ResumeData) (cfg : ResumeConfig)
    (rm : RelevanceMap) (h : cfg.includeSections.experience = true) :
    ∃ k, k ≤ (Generator.rankExperiences rd.experiences rm).length
      ∧ (⟨SectionType.experience,
            Generator.expCostSum cfg.maxBulletsPerExperience
              ((Generator.rankExperiences rd.experiences rm).take k),
            some (((Generator.rankExperiences rd.experiences rm).take k).map
              (Generator.expItemOf cfg.maxBulletsPerExperience))⟩
          : LayoutSection) ∈ (Generator.allocateLayout rd cfg rm).sections
      ∧ (∀ j ≤ k, Generator.expCostSum cfg.maxBulletsPerExperience
            ((Generator.rankExperiences rd.experiences rm).take j)
          ≤ max (Generator.expTargetOf rd cfg) 0)
      ∧ (k < (Generator.rankExperiences rd.experiences rm).length →
          Generator.expTargetOf rd cfg < Generator.expCostSum cfg.maxBulletsPerExperience
            ((Generator.rankExperiences rd.experiences rm).take (k + 1))) := by
  obtain ⟨k, hk, h1, h2, h3, h4⟩ := Generator.expWalk_spec cfg.maxBulletsPerExperience
    (Generator.expTargetOf rd cfg) (Generator.rankExperiences rd.experiences rm) 0
  refine ⟨k, hk, ?_, ?_, ?_⟩
  · have hmem := Generator.exp_section_mem rd cfg rm h
    have he1 : (Generator.expAllocOf rd cfg rm).1
        = ((Generator.rankExperiences rd.experiences rm).take k).map
          (Generator.expItemOf cfg.maxBulletsPerExperience) := h1
    have he2 : (Generator.expAllocOf rd cfg rm).2
        = Generator.expCostSum cfg.maxBulletsPerExperience
          ((Generator.rankExperiences rd.experiences rm).take k) := by
      rw [show (Generator.expAllocOf rd cfg rm).2 = 0 + _ from h2]
      ring
    rw [he1, he2] at hmem
    exact hmem
  · intro j hj
    have := h3 j hj
    simpa using this
  · intro hlt
    have := h4 hlt
    simpa using this

namespace Generator

theorem rankExperiences_singleton (e : Experience) (rm : RelevanceMap) :
    rankExperiences [e] rm = [e] := by
  unfold rankExperiences
  exact List.mergeSort_singleton e

theorem rankProjects_singleton (p : Project) (rm : RelevanceMap) :
    rankProjects [p] rm = [p] := by
  unfold rankProjects
  exact List.mergeSort_singleton p

end Generator

/-- An all-default relevance map (every lookup misses, scoring as 0). -/
def layoutCexMap : RelevanceMap :=
  ⟨fun _ => none, fun _ => none, fun _ => none, 0⟩

def layoutCex5Exp : Experience :=
  ⟨"e1", "Eng", "Acme", "May 2020", "Present", ["a"]⟩

/-- Concrete input for claim C5: sixteen education entries push
`remainingLines` to `-1`, so `floor(remainingLines * 0.7) = -1` while the
experience section still allocates `0` lines. -/
def layoutCex5Resume : ResumeData :=
  { contact := ⟨"Bob", "b@x.co", some "1"⟩,
    summary := none,
    experiences := [layoutCex5Exp],
    projects := [],
    education := List.replicate 16 ⟨"ed", "BS", "U", "2020"⟩,
    skills := [] }

def layoutCex5Config : ResumeConfig :=
  { pageCount := 1,
    includeSections := ⟨false, false, true, false, true⟩,
    maxBulletsPerExperience := 4,
    maxProjects := 3,
    summaryLength := SummaryLength.short }

/-- C5: the claim's bound "the experience section's allocated line total
never exceeds `floor(remainingLines * 0.7)`" is false on the code: at this
input the target is `-1` while the (empty) experience section allocates
`0 > -1` lines. -/
theorem C5_counterexample :
    ¬ (∀ sec ∈ (Generator.allocateLayout layoutCex5Resume layoutCex5Config layoutCexMap).sections,
        sec.type = SectionType.experience →
          sec.allocatedLines ≤ Generator.expTargetOf layoutCex5Resume layoutCex5Config) := by
  intro hall
  have hrank : Generator.rankExperiences layoutCex5Resume.experiences layoutCexMap
      = layoutCex5Resume.experiences := by
    show Generator.rankExperiences [layoutCex5Exp] layoutCexMap = [layoutCex5Exp]
    exact Generator.rankExperiences_singleton _ _
  have halloc : (Generator.expAllocOf layoutCex5Resume layoutCex5Config layoutCexMap).2 = 0 := by
    unfold Generator.expAllocOf
    rw [hrank]
    decide
  have htarget : Generator.expTargetOf layoutCex5Resume layoutCex5Config = -1 := by decide
  have hmem := Generator.exp_section_mem layoutCex5Resume layoutCex5Config layoutCexMap rfl
  have h2 : (Generator.expAllocOf layoutCex5Resume layoutCex5Config layoutCexMap).2
      ≤ Generator.expTargetOf layoutCex5Resume layoutCex5Config := hall _ hmem rfl
  rw [halloc, htarget] at h2
  exact absurd h2 (by decide)

/-- Witness for C5 (amended) at the same concrete input. -/
theorem C5_experience_walk_greedy_witness :
    layoutCex5Config.includeSections.experience = true
    ∧ ∃ k, k ≤ (Generator.rankExperiences layoutCex5Resume.experiences layoutCexMap).length
      ∧ (⟨SectionType.experience,
            Generator.expCostSum layoutCex5Config.maxBulletsPerExperience
              ((Generator.rankExperiences layoutCex5Resume.experiences layoutCexMap).take k),
            some (((Generator.rankExperiences layoutCex5Resume.experiences layoutCexMap).take k).map
              (Generator.expItemOf layoutCex5Config.maxBulletsPerExperience))⟩
          : LayoutSection) ∈ (Generator.allocateLayout layoutCex5Resume layoutCex5Config layoutCexMap).sections
      ∧ (∀ j ≤ k, Generator.expCostSum layoutCex5Config.maxBulletsPerExperience
            ((Generator.rankExperiences layoutCex5Resume.experiences layoutCexMap).take j)
          ≤ max (Generator.expTargetOf layoutCex5Resume layoutCex5Config) 0)
      ∧ (k < (Generator.rankExperiences layoutCex5Resume.experiences layoutCexMap).length →
          Generator.expTargetOf layoutCex5Resume layoutCex5Config
            < Generator.expCostSum layoutCex5Config.maxBulletsPerExperience
              ((Generator.rankExperiences layoutCex5Resume.experiences layoutCexMap).take (k + 1))) :=
  ⟨rfl, C5_experience_walk_greedy layoutCex5Resume layoutCex5Config layoutCexMap rfl⟩

namespace Generator

/-- When the projects walk admits at least one project (and the section is
enabled with a nonempty ranked list), `allocateLayout` emits a projects
section built exactly from the walk. -/
theorem proj_section_mem (rd : ResumeData) (cfg : ResumeConfig) (rm : RelevanceMap)
    (h : cfg.includeSections.projects = true)
    (hne : 0 < (rankProjects rd.projects rm).length)
    (hitems : 0 < (projAllocOf rd cfg rm).1.length) :
    (⟨SectionType.projects, (projAllocOf rd cfg rm).2, some (projAllocOf rd cfg rm).1⟩
      : LayoutSection) ∈ (allocateLayout rd cfg rm).sections := by
  have hcond : (cfg.includeSections.projects
      && decide ((rankProjects rd.projects rm).length > 0)) = true := by
    simp [h]
    omega
  have hdec : decide ((projAllocOf rd cfg rm).1.length > 0) = true := decide_eq_true hitems
  unfold allocateLayout
  dsimp only
  rw [hcond, hdec]
  split_ifs <;> simp_all [List.mem_append]

/-- When the projects walk admits nothing, no projects section appears in
the plan. -/
theorem proj_section_absent (rd : ResumeData) (cfg : ResumeConfig) (rm : RelevanceMap)
    (hitems : (projAllocOf rd cfg rm).1.length = 0) :
    ∀ sec ∈ (allocateLayout rd cfg rm).sections, sec.type ≠ SectionType.projects := by
  intro sec hsec
  unfold allocateLayout at hsec
  dsimp only at hsec
  split_ifs at hsec <;> simp_all [List.mem_append] <;>
    rcases hsec with h | h | h | h | h | h <;> simp_all

/-- Modelled from the spec (claim C4's wording): the project-walk target as
`min(remainingLines - experienceLinesConsumedSoFarBeyondHeader,
maxProjects * 4)`, reading "experience lines consumed so far beyond the
header" as the lines consumed by the experience section alone.  The code
instead subtracts `usedLines - HEADER_LINES`, which also includes the
summary and skills lines. -/
def projTargetClaim (rd : ResumeData) (cfg : ResumeConfig) (rm : RelevanceMap) : Int :=
  min (remainingLinesOf rd cfg
        - (if cfg.includeSections.experience then (expAllocOf rd cfg rm).2 else 0))
    ((cfg.maxProjects : Int) * 4)

end Generator

def layoutCex4Exp : Experience :=
  ⟨"e1", "Eng", "Acme", "May 2020", "Present", ["a", "b", "c", "d"]⟩

def layoutCex4Proj : Project :=
  ⟨"p1", "Proj", [], none, ["x", "y"]⟩

/-- Concrete input for claim C4: summary (4 lines) and skills (6 lines) are
enabled, so the code's project target
`min(remainingLines - (usedLines - 6), maxProjects * 4) = min(22 - 20, 12) = 2`
differs from the claim's `min(remainingLines - experienceLines,
maxProjects * 4) = min(22 - 10, 12) = 12`: the 5-line project fits the
claim's target but not the code's. -/
def layoutCex4Resume : ResumeData :=
  { contact := ⟨"Bob", "b@x.co", some "1"⟩,
    summary := none,
    experiences := [layoutCex4Exp],
    projects := [layoutCex4Proj],
    education := List.replicate 5 ⟨"ed", "BS", "U", "2020"⟩,
    skills := List.replicate 6 ⟨"Cat", ["s"]⟩ }

def layoutCex4Config : ResumeConfig :=
  { pageCount := 1,
    includeSections := ⟨true, true, true, true, true⟩,
    maxBulletsPerExperience := 4,
    maxProjects := 3,
    summaryLength := SummaryLength.long }

/-- C4: the claim's target formula is false on the code.  At this input the
walk against the claim's target `min(remainingLines - experienceLines,
maxProjects * 4) = 12` admits the project (cost 5), yet the plan produced by
`allocateLayout` contains no projects section at all, because the code's
target subtracts the summary and skills lines too and leaves only 2. -/
theorem C4_counterexample :
    Generator.projTargetClaim layoutCex4Resume layoutCex4Config layoutCexMap = 12
    ∧ Generator.projWalk (Generator.projTargetClaim layoutCex4Resume layoutCex4Config layoutCexMap)
        ((Generator.rankProjects layoutCex4Resume.projects layoutCexMap).take
          layoutCex4Config.maxProjects) 0
      = ([⟨"p1", 2⟩], 5)
    ∧ ∀ sec ∈ (Generator.allocateLayout layoutCex4Resume layoutCex4Config layoutCexMap).sections,
        sec.type ≠ SectionType.projects := by
  have hrankE : Generator.rankExperiences layoutCex4Resume.experiences layoutCexMap
      = layoutCex4Resume.experiences := by
    show Generator.rankExperiences [layoutCex4Exp] layoutCexMap = [layoutCex4Exp]
    exact Generator.rankExperiences_singleton _ _
  have hrankP : Generator.rankProjects layoutCex4Resume.projects layoutCexMap
      = layoutCex4Resume.projects := by
    show Generator.rankProjects [layoutCex4Proj] layoutCexMap = [layoutCex4Proj]
    exact Generator.rankProjects_singleton _ _
  have hexp : Generator.expAllocOf layoutCex4Resume layoutCex4Config layoutCexMap
      = ([⟨"e1", 4⟩], 10) := by
    unfold Generator.expAllocOf
    rw [hrankE]
    decide
  have hclaim : Generator.projTargetClaim layoutCex4Resume layoutCex4Config layoutCexMap = 12 := by
    unfold Generator.projTargetClaim
    rw [hexp]
    decide
  have hcode : Generator.projTargetOf layoutCex4Resume layoutCex4Config layoutCexMap = 2 := by
    unfold Generator.projTargetOf Generator.usedAfterExpOf
    rw [hexp]
    decide
  have hproj : Generator.projAllocOf layoutCex4Resume layoutCex4Config layoutCexMap = ([], 0) := by
    unfold Generator.projAllocOf
    rw [hcode, hrankP]
    decide
  refine ⟨hclaim, ?_, ?_⟩
  · rw [hclaim, hrankP]
    decide
  · exact Generator.proj_section_absent layoutCex4Resume layoutCex4Config layoutCexMap
      (by rw [hproj]; rfl)

/-- C4 (amended): with projects enabled and a nonempty ranked list, the
project walk runs over the ranked projects capped to `maxProjects` against
the target `min(remainingLines - (linesUsedSoFarBeyondHeader),
maxProjects * 4)` — where the subtracted lines include summary, skills and
experience lines, not experience lines alone — admitting, in ranked order,
each project of cost `1 + min(2, bullets) * 2` that still fits (a
non-fitting project is skipped, not a stopping point); the admitted lines
never exceed `max(target, 0)`, at most `maxProjects` projects are admitted,
and the plan contains a projects section exactly when the walk admitted
anything. -/
theorem C4_project_walk_target (rd : ResumeData) (cfg : ResumeConfig) (rm : RelevanceMap)
    (h : cfg.includeSections.projects = true)
    (hne : 0 < (Generator.rankProjects rd.projects rm).length) :
    (Generator.projTargetOf rd cfg rm
        = min (Generator.remainingLinesOf rd cfg
            - (Generator.usedAfterExpOf rd cfg rm - 6)) ((cfg.maxProjects : Int) * 4))
    ∧ (∃ s : List Project,
        s.Sublist ((Generator.rankProjects rd.projects rm).take cfg.maxProjects)
        ∧ (Generator.projAllocOf rd cfg rm).1 = s.map Generator.projItemOf
        ∧ (Generator.projAllocOf rd cfg rm).2 = (s.map Generator.projCost).sum
        ∧ (Generator.projAllocOf rd cfg rm).2 ≤ max (Generator.projTargetOf rd cfg rm) 0
        ∧ (Generator.projAllocOf rd cfg rm).1.length ≤ cfg.maxProjects)
    ∧ ((Generator.projAllocOf rd cfg rm).1.length = 0 →
        ∀ sec ∈ (Generator.allocateLayout rd cfg rm).sections,
          sec.type ≠ SectionType.projects)
    ∧ (0 < (Generator.projAllocOf rd cfg rm).1.length →
        (⟨SectionType.projects, (Generator.projAllocOf rd cfg rm).2,
            some (Generator.projAllocOf rd cfg rm).1⟩ : LayoutSection)
          ∈ (Generator.allocateLayout rd cfg rm).sections) := by
  refine ⟨rfl, ?_, ?_, ?_⟩
  · obtain ⟨s, hsub, h1, h2, h3⟩ := Generator.projWalk_spec
      (Generator.projTargetOf rd cfg rm)
      ((Generator.rankProjects rd.projects rm).take cfg.maxProjects) 0
    refine ⟨s, hsub, h1, by simpa using h2, by simpa using h3, ?_⟩
    have hlen : (Generator.projAllocOf rd cfg rm).1.length = s.length := by
      show (Generator.projWalk _ _ 0).1.length = s.length
      rw [h1, List.length_map]
    rw [hlen]
    calc s.length
        ≤ ((Generator.rankProjects rd.projects rm).take cfg.maxProjects).length :=
          hsub.length_le
      _ ≤ cfg.maxProjects := by
          rw [List.length_take]
          exact min_le_left _ _
  · intro h0
    exact Generator.proj_section_absent rd cfg rm h0
  · intro h0
    exact Generator.proj_section_mem rd cfg rm h hne h0

def projWitProject : Project :=
  ⟨"p1", "Proj", [], none, ["x", "y"]⟩

/-- Concrete input for the C4 witness: only the projects section enabled,
one 2-bullet project, which the walk admits. -/
def projWitResume : ResumeData :=
  { contact := ⟨"Bob", "b@x.co", some "1"⟩,
    summary := none,
    experiences := [],
    projects := [projWitProject],
    education := [],
    skills := [] }

def projWitConfig : ResumeConfig :=
  { pageCount := 1,
    includeSections := ⟨false, false, false, true, false⟩,
    maxBulletsPerExperience := 4,
    maxProjects := 3,
    summaryLength := SummaryLength.short }

/-- Witness for C4 (amended) at a concrete input with a nonempty ranked
project list. -/
theorem C4_project_walk_target_witness :
    projWitConfig.includeSections.projects = true
    ∧ 0 < (Generator.rankProjects projWitResume.projects layoutCexMap).length
    ∧ ((Generator.projTargetOf projWitResume projWitConfig layoutCexMap
        = min (Generator.remainingLinesOf projWitResume projWitConfig
            - (Generator.usedAfterExpOf projWitResume projWitConfig layoutCexMap - 6))
          ((projWitConfig.maxProjects : Int) * 4))
      ∧ (∃ s : List Project,
          s.Sublist ((Generator.rankProjects projWitResume.projects layoutCexMap).take
            projWitConfig.maxProjects)
          ∧ (Generator.projAllocOf projWitResume projWitConfig layoutCexMap).1
              = s.map Generator.projItemOf
          ∧ (Generator.projAllocOf projWitResume projWitConfig layoutCexMap).2
              = (s.map Generator.projCost).sum
          ∧ (Generator.projAllocOf projWitResume projWitConfig layoutCexMap).2
              ≤ max (Generator.projTargetOf projWitResume projWitConfig layoutCexMap) 0
          ∧ (Generator.projAllocOf projWitResume projWitConfig layoutCexMap).1.length
              ≤ projWitConfig.maxProjects)
      ∧ ((Generator.projAllocOf projWitResume projWitConfig layoutCexMap).1.length = 0 →
          ∀ sec ∈ (Generator.allocateLayout projWitResume projWitConfig layoutCexMap).sections,
            sec.type ≠ SectionType.projects)
      ∧ (0 < (Generator.projAllocOf projWitResume projWitConfig layoutCexMap).1.length →
          (⟨SectionType.projects,
              (Generator.projAllocOf projWitResume projWitConfig layoutCexMap).2,
              some (Generator.projAllocOf projWitResume projWitConfig layoutCexMap).1⟩
            : LayoutSection)
            ∈ (Generator.allocateLayout projWitResume projWitConfig layoutCexMap).sections)) :=
  ⟨rfl,
    by
      show 0 < (Generator.rankProjects [projWitProject] layoutCexMap).length
      rw [Generator.rankProjects_singleton]
      decide,
    C4_project_walk_target projWitResume projWitConfig layoutCexMap rfl
      (by
        show 0 < (Generator.rankProjects [projWitProject] layoutCexMap).length
        rw [Generator.rankProjects_singleton]
        decide)⟩

namespace Generator

/-- T of the claim: 20 points when the lower-cased title and role type
contain one another. -/
def titleMatchScore (experience : Experience) (jdAnalysis : JDAnalysis) : ℚ :=
  if strContains (lowerStr experience.title) (lowerStr jdAnalysis.roleType)
      || strContains (lowerStr jdAnalysis.roleType) (lowerStr experience.title) then 20 else 0

/-- K of the claim: `min(40, (matches / max(keywordCount, 1)) * 60)` with
matches counted over primary+secondary keywords and all skill-cluster
tokens, and the denominator counting only primary+secondary keywords. -/
def keywordDensityScore (experience : Experience) (jdAnalysis : JDAnalysis) : ℚ :=
  min 40 (((((allKeywordsOf jdAnalysis ++ skillKeywordsOf jdAnalysis).filter
      (fun keyword =>
        strContains (lowerStr (joinSpace experience.bullets)) keyword)).length : ℚ)
    / ((max (allKeywordsOf jdAnalysis).length 1 : Nat) : ℚ)) * 60)

/-- B of the claim: `5 * themeWeight` summed over every impact-theme keyword
found in the bullet text, uncapped. -/
def impactThemeBonus (experience : Experience) (jdAnalysis : JDAnalysis) : ℚ :=
  (jdAnalysis.impactThemes.map (fun theme =>
    ((theme.keywords.filter (fun keyword =>
        strContains (lowerStr (joinSpace experience.bullets)) (lowerStr keyword))).length : ℚ)
      * (5 * theme.weight))).sum

theorem foldl_add_if_count {α : Type} (found : α → Bool) (c : ℚ) :
    ∀ (l : List α) (init : ℚ),
      l.foldl (fun s x => if found x then s + c else s) init
        = init + ((l.filter found).length : ℚ) * c := by
  intro l
  induction l with
  | nil => simp
  | cons a t ih =>
    intro init
    by_cases h : found a <;> simp [h, ih] <;> ring

theorem foldl_theme_bonus (bulletText : String) :
    ∀ (themes : List ImpactTheme) (init : ℚ),
      themes.foldl (fun s theme =>
          theme.keywords.foldl (fun s2 keyword =>
            if strContains bulletText (lowerStr keyword) then s2 + 5 * theme.weight else s2) s)
        init
      = init + (themes.map (fun theme =>
          ((theme.keywords.filter (fun keyword =>
              strContains bulletText (lowerStr keyword))).length : ℚ)
            * (5 * theme.weight))).sum := by
  intro themes
  induction themes with
  | nil => simp
  | cons t rest ih =>
    intro init
    simp only [List.foldl_cons, List.map_cons, List.sum_cons]
    rw [foldl_add_if_count (fun keyword => strContains bulletText (lowerStr keyword))
      (5 * t.weight) t.keywords init, ih]
    ring

/-- Closed form of `calculateExperienceRelevance`: title bonus plus keyword
density plus theme bonus, capped at 100. -/
theorem calculateExperienceRelevance_eq (experience : Experience) (jdAnalysis : JDAnalysis) :
    calculateExperienceRelevance experience jdAnalysis
      = min (titleMatchScore experience jdAnalysis
          + keywordDensityScore experience jdAnalysis
          + impactThemeBonus experience jdAnalysis) 100 := by
  unfold calculateExperienceRelevance titleMatchScore keywordDensityScore impactThemeBonus
  dsimp only
  rw [foldl_theme_bonus]

end Generator

/-- C6: the experience relevance score is the clamp to 100 of
`T + K + B` exactly as the claim states them: `T` the 20-point mutual
title/role-type substring bonus, `K = min(40, (m / max(keywordCount,1)) * 60)`
with `m` counted over primary+secondary keywords and skill-cluster tokens
while `keywordCount` counts only primary+secondary keywords, and `B` the
uncapped sum of `5 * themeWeight` per impact-theme keyword hit. -/
theorem C6_experience_relevance_formula (experience : Experience) (jdAnalysis : JDAnalysis) :
    Generator.calculateExperienceRelevance experience jdAnalysis
      = min (Generator.titleMatchScore experience jdAnalysis
          + Generator.keywordDensityScore experience jdAnalysis
          + Generator.impactThemeBonus experience jdAnalysis) 100 :=
  Generator.calculateExperienceRelevance_eq experience jdAnalysis

/-- C7: for every experience, project and skill token, and every job
analysis whose impact-theme weights are nonnegative (the data model
constrains them to `[0, 1]`), the computed relevance scores lie in
`[0, 100]`; all the denominators used are of the form `max(n, 1) ≥ 1`, so no
division by zero occurs even on empty bullet, keyword or tech-stack lists. -/
theorem C7_relevance_scores_bounded (experience : Experience) (project : Project)
    (skill : String) (jdAnalysis : JDAnalysis)
    (hw : ∀ t ∈ jdAnalysis.impactThemes, 0 ≤ t.weight) :
    (0 ≤ Generator.calculateExperienceRelevance experience jdAnalysis
      ∧ Generator.calculateExperienceRelevance experience jdAnalysis ≤ 100)
    ∧ (0 ≤ Generator.calculateProjectRelevance project jdAnalysis
      ∧ Generator.calculateProjectRelevance project jdAnalysis ≤ 100)
    ∧ (0 ≤ Generator.skillScore skill jdAnalysis
      ∧ Generator.skillScore skill jdAnalysis ≤ 100)
    ∧ (0 : ℚ) < ((max (Generator.allKeywordsOf jdAnalysis).length 1 : Nat) : ℚ)
    ∧ (0 : ℚ) < ((max project.techStack.length 1 : Nat) : ℚ) := by
  refine ⟨⟨?_, ?_⟩, ⟨?_, ?_⟩, ⟨?_, ?_⟩, ?_, ?_⟩
  · rw [Generator.calculateExperienceRelevance_eq]
    refine le_min ?_ (by norm_num)
    have hT : 0 ≤ Generator.titleMatchScore experience jdAnalysis := by
      unfold Generator.titleMatchScore
      split <;> norm_num
    have hK : 0 ≤ Generator.keywordDensityScore experience jdAnalysis := by
      unfold Generator.keywordDensityScore
      refine le_min (by norm_num) ?_
      refine mul_nonneg (div_nonneg ?_ ?_) (by norm_num) <;> positivity
    have hB : 0 ≤ Generator.impactThemeBonus experience jdAnalysis := by
      unfold Generator.impactThemeBonus
      refine List.sum_nonneg ?_
      intro q hq
      rw [List.mem_map] at hq
      obtain ⟨theme, htheme, rfl⟩ := hq
      refine mul_nonneg (by positivity) ?_
      have := hw theme htheme
      linarith
    linarith
  · rw [Generator.calculateExperienceRelevance_eq]
    exact min_le_right _ _
  · unfold Generator.calculateProjectRelevance
    dsimp only
    refine le_min ?_ (by norm_num)
    refine add_nonneg (add_nonneg ?_ ?_) ?_
    · refine le_min (by norm_num) ?_
      refine mul_nonneg (div_nonneg ?_ ?_) (by norm_num) <;> positivity
    · refine le_min (by norm_num) ?_
      refine mul_nonneg (div_nonneg ?_ ?_) (by norm_num) <;> positivity
    · split <;> norm_num
  · unfold Generator.calculateProjectRelevance
    dsimp only
    exact min_le_right _ _
  · unfold Generator.skillScore
    split <;> norm_num
  · unfold Generator.skillScore
    split <;> norm_num
  · positivity
  · positivity

def c7Exp : Experience := ⟨"e", "", "", "", "", []⟩

def c7Proj : Project := ⟨"p", "", [], none, []⟩

def c7Skill : String := "Python"

/-- A degenerate job analysis: empty keyword lists and clusters, one theme
with weight 1/2. -/
def c7JD : JDAnalysis :=
  ⟨"", "", "", "", [], [], [], [⟨"growth", ["grew"], 1/2⟩]⟩

/-- Witness for C7 at degenerate inputs (empty bullets, keywords and tech
stack). -/
theorem C7_relevance_scores_bounded_witness :
    (∀ t ∈ c7JD.impactThemes, 0 ≤ t.weight)
    ∧ ((0 ≤ Generator.calculateExperienceRelevance c7Exp c7JD
        ∧ Generator.calculateExperienceRelevance c7Exp c7JD ≤ 100)
      ∧ (0 ≤ Generator.calculateProjectRelevance c7Proj c7JD
        ∧ Generator.calculateProjectRelevance c7Proj c7JD ≤ 100)
      ∧ (0 ≤ Generator.skillScore c7Skill c7JD
        ∧ Generator.skillScore c7Skill c7JD ≤ 100)
      ∧ (0 : ℚ) < ((max (Generator.allKeywordsOf c7JD).length 1 : Nat) : ℚ)
      ∧ (0 : ℚ) < ((max c7Proj.techStack.length 1 : Nat) : ℚ)) :=
  ⟨by decide, C7_relevance_scores_bounded c7Exp c7Proj c7Skill c7JD (by decide)⟩

namespace Generator

theorem expLe_trans (rm : RelevanceMap) : ∀ a b c : Experience,
    decide (expScoreOf rm b ≤ expScoreOf rm a) = true →
    decide (expScoreOf rm c ≤ expScoreOf rm b) = true →
    decide (expScoreOf rm c ≤ expScoreOf rm a) = true := by
  intro a b c hab hbc
  rw [decide_eq_true_iff] at *
  exact le_trans hbc hab

theorem expLe_total (rm : RelevanceMap) : ∀ a b : Experience,
    (decide (expScoreOf rm b ≤ expScoreOf rm a)
      || decide (expScoreOf rm a ≤ expScoreOf rm b)) = true := by
  intro a b
  simp only [Bool.or_eq_true, decide_eq_true_iff]
  exact le_total _ _

theorem projLe_trans (rm : RelevanceMap) : ∀ a b c : Project,
    decide (projScoreOf rm b ≤ projScoreOf rm a) = true →
    decide (projScoreOf rm c ≤ projScoreOf rm b) = true →
    decide (projScoreOf rm c ≤ projScoreOf rm a) = true := by
  intro a b c hab hbc
  rw [decide_eq_true_iff] at *
  exact le_trans hbc hab

theorem projLe_total (rm : RelevanceMap) : ∀ a b : Project,
    (decide (projScoreOf rm b ≤ projScoreOf rm a)
      || decide (projScoreOf rm a ≤ projScoreOf rm b)) = true := by
  intro a b
  simp only [Bool.or_eq_true, decide_eq_true_iff]
  exact le_total _ _

end Generator

/-- C8: `rankExperiences` and `rankProjects` return a permutation of their
input sorted in descending order of the mapped score, and they are stable:
two entries with equal scores that appear as an (in-order) pair in the
input appear as an (in-order) pair in the output. -/
theorem C8_ranking_sorted_stable (experiences : List Experience)
    (projects : List Project) (rm : RelevanceMap) :
    ((Generator.rankExperiences experiences rm).Pairwise
        (fun a b => Generator.expScoreOf rm b ≤ Generator.expScoreOf rm a)
      ∧ (Generator.rankExperiences experiences rm).Perm experiences
      ∧ ∀ a b : Experience, Generator.expScoreOf rm a = Generator.expScoreOf rm b →
          [a, b].Sublist experiences →
          [a, b].Sublist (Generator.rankExperiences experiences rm))
    ∧ ((Generator.rankProjects projects rm).Pairwise
        (fun a b => Generator.projScoreOf rm b ≤ Generator.projScoreOf rm a)
      ∧ (Generator.rankProjects projects rm).Perm projects
      ∧ ∀ a b : Project, Generator.projScoreOf rm a = Generator.projScoreOf rm b →
          [a, b].Sublist projects →
          [a, b].Sublist (Generator.rankProjects projects rm)) := by
  constructor
  · refine ⟨?_, ?_, ?_⟩
    · have := List.sorted_mergeSort (Generator.expLe_trans rm) (Generator.expLe_total rm)
        experiences
      exact this.imp (fun h => decide_eq_true_iff.mp h)
    · exact List.mergeSort_perm experiences _
    · intro a b hscore hsub
      exact List.pair_sublist_mergeSort (Generator.expLe_trans rm) (Generator.expLe_total rm)
        (decide_eq_true (le_of_eq hscore.symm)) hsub
  · refine ⟨?_, ?_, ?_⟩
    · have := List.sorted_mergeSort (Generator.projLe_trans rm) (Generator.projLe_total rm)
        projects
      exact this.imp (fun h => decide_eq_true_iff.mp h)
    · exact List.mergeSort_perm projects _
    · intro a b hscore hsub
      exact List.pair_sublist_mergeSort (Generator.projLe_trans rm) (Generator.projLe_total rm)
        (decide_eq_true (le_of_eq hscore.symm)) hsub

def c8ExpA : Experience := ⟨"a", "A", "", "", "", []⟩

def c8ExpB : Experience := ⟨"b", "B", "", "", "", []⟩

def c8ProjA : Project := ⟨"a", "A", [], none, []⟩

def c8ProjB : Project := ⟨"b", "B", [], none, []⟩

/-- A relevance map giving every entry the same score 50. -/
def c8Map : RelevanceMap :=
  ⟨fun _ => some 50, fun _ => some 50, fun _ => none, 0⟩

/-- Witness for C8: two equal-score entries keep their input order in the
ranked output. -/
theorem C8_ranking_sorted_stable_witness :
    Generator.expScoreOf c8Map c8ExpA = Generator.expScoreOf c8Map c8ExpB
    ∧ [c8ExpA, c8ExpB].Sublist [c8ExpA, c8ExpB]
    ∧ [c8ExpA, c8ExpB].Sublist (Generator.rankExperiences [c8ExpA, c8ExpB] c8Map)
    ∧ Generator.projScoreOf c8Map c8ProjA = Generator.projScoreOf c8Map c8ProjB
    ∧ [c8ProjA, c8ProjB].Sublist (Generator.rankProjects [c8ProjA, c8ProjB] c8Map) :=
  ⟨rfl, List.Sublist.refl _,
    (C8_ranking_sorted_stable [c8ExpA, c8ExpB] [c8ProjA, c8ProjB] c8Map).1.2.2 c8ExpA c8ExpB
      rfl (List.Sublist.refl _),
    rfl,
    (C8_ranking_sorted_stable [c8ExpA, c8ExpB] [c8ProjA, c8ProjB] c8Map).2.2.2 c8ProjA c8ProjB
      rfl (List.Sublist.refl _)⟩

/-! ## Substring transfer lemmas for the match-report text -/

theorem listContains_empty_needle (hay : List Char) : listContains hay [] = true := by
  cases hay <;> simp [listContains, List.isPrefixOf]

theorem isPrefixOf_append_of_isPrefixOf (l1 : List Char) :
    ∀ l2 l3 : List Char, l1.isPrefixOf l2 = true → l1.isPrefixOf (l2 ++ l3) = true := by
  induction l1 with
  | nil => intro l2 l3 _; simp [List.isPrefixOf]
  | cons c t ih =>
    intro l2 l3 h
    cases l2 with
    | nil => simp [List.isPrefixOf] at h
    | cons c2 t2 =>
      simp only [List.isPrefixOf, Bool.and_eq_true] at h
      rw [List.cons_append]
      simp only [List.isPrefixOf, Bool.and_eq_true]
      exact ⟨h.1, ih t2 l3 h.2⟩

theorem listContains_append_left (a b nd : List Char)
    (h : listContains a nd = true) : listContains (a ++ b) nd = true := by
  induction a with
  | nil =>
    simp only [listContains] at h
    have : nd = [] := by
      cases nd with
      | nil => rfl
      | cons c t => simp [List.isEmpty] at h
    subst this
    exact listContains_empty_needle _
  | cons c t ih =>
    simp only [listContains, Bool.or_eq_true] at h
    rw [List.cons_append]
    simp only [listContains, Bool.or_eq_true]
    rcases h with h | h
    · exact Or.inl (isPrefixOf_append_of_isPrefixOf nd (c :: t) b h)
    · exact Or.inr (ih h)

theorem listContains_append_right (a b nd : List Char)
    (h : listContains b nd = true) : listContains (a ++ b) nd = true := by
  induction a with
  | nil => simpa using h
  | cons c t ih =>
    rw [List.cons_append]
    simp only [listContains, Bool.or_eq_true]
    exact Or.inr ih

theorem strContains_append_left (a b nd : String)
    (h : strContains a nd = true) : strContains (a ++ b) nd = true := by
  unfold strContains at h ⊢
  rw [String.data_append]
  exact listContains_append_left _ _ _ h

theorem strContains_append_right (a b nd : String)
    (h : strContains b nd = true) : strContains (a ++ b) nd = true := by
  unfold strContains at h ⊢
  rw [String.data_append]
  exact listContains_append_right _ _ _ h

theorem strContains_empty_needle (hay : String) : strContains hay "" = true :=
  listContains_empty_needle hay.data

theorem lowerStr_append (a b : String) : lowerStr (a ++ b) = lowerStr a ++ lowerStr b :=
  congrArg String.mk (by rw [String.data_append, List.map_append])

theorem joinSpace_cons_of_ne (x : String) (xs : List String) (h : xs ≠ []) :
    joinSpace (x :: xs) = x ++ " " ++ joinSpace xs := by
  cases xs with
  | nil => exact absurd rfl h
  | cons y t => rfl

theorem joinSpace_append (l1 l2 : List String) (h1 : l1 ≠ []) (h2 : l2 ≠ []) :
    joinSpace (l1 ++ l2) = joinSpace l1 ++ " " ++ joinSpace l2 := by
  induction l1 with
  | nil => exact absurd rfl h1
  | cons x xs ih =>
    cases xs with
    | nil =>
      rw [List.cons_append, List.nil_append, joinSpace_cons_of_ne x l2 h2]
      rfl
    | cons y t =>
      rw [List.cons_append, joinSpace_cons_of_ne x ((y :: t) ++ l2) (by simp),
        ih (by simp), joinSpace_cons_of_ne x (y :: t) (by simp)]
      simp [String.append_assoc]

/-- A needle found in the lower-cased head of a joined list is found in the
lower-cased join. -/
theorem strContains_lower_joinSpace_head (s0 : String) (rest : List String) (nd : String)
    (h : strContains (lowerStr s0) nd = true) :
    strContains (lowerStr (joinSpace (s0 :: rest))) nd = true := by
  cases rest with
  | nil => simpa [joinSpace] using h
  | cons y t =>
    rw [joinSpace_cons_of_ne s0 (y :: t) (by simp), lowerStr_append, lowerStr_append]
    exact strContains_append_left _ _ _ (strContains_append_left _ _ _ h)

/-- A needle found in the lower-cased join of a suffix segment is found in
the lower-cased join of the whole list. -/
theorem strContains_lower_joinSpace_suffix (pre suf : List String) (nd : String)
    (h1 : pre ≠ []) (h2 : suf ≠ [])
    (h : strContains (lowerStr (joinSpace suf)) nd = true) :
    strContains (lowerStr (joinSpace (pre ++ suf))) nd = true := by
  rw [joinSpace_append pre suf h1 h2, lowerStr_append]
  exact strContains_append_right _ _ _ h

theorem head_in_joined_text (x : String) (A B C : List String) (nd : String)
    (h : strContains (lowerStr x) nd = true) :
    strContains (lowerStr (joinSpace ([x] ++ A ++ B ++ C))) nd = true := by
  have hshape : [x] ++ A ++ B ++ C = x :: (A ++ B ++ C) := by simp
  rw [hshape]
  exact strContains_lower_joinSpace_head x _ nd h

theorem suffix_in_joined_text (x : String) (A B C : List String) (nd : String) (hC : C ≠ [])
    (h : strContains (lowerStr (joinSpace C)) nd = true) :
    strContains (lowerStr (joinSpace ([x] ++ A ++ B ++ C))) nd = true := by
  have hshape : [x] ++ A ++ B ++ C = (x :: (A ++ B)) ++ C := by simp
  rw [hshape]
  exact strContains_lower_joinSpace_suffix (x :: (A ++ B)) C nd (by simp) hC h

namespace Generator

theorem keywordEntryOf_keyword (jd : JDAnalysis) (g : GeneratedResume) (kw : String) :
    (keywordEntryOf jd g kw).keyword = kw := rfl

theorem keywordEntryOf_found (jd : JDAnalysis) (g : GeneratedResume) (kw : String) :
    (keywordEntryOf jd g kw).found = strContains (includedResumeText g) (lowerStr kw) := rfl

theorem keywordEntryOf_locations (jd : JDAnalysis) (g : GeneratedResume) (kw : String) :
    (keywordEntryOf jd g kw).locations
      = (match g.summary with
          | some s => if strContains (lowerStr s) (lowerStr kw) then ["summary"] else []
          | none => [])
        ++ (if strContains (skillsTextOf g) (lowerStr kw) then ["skills"] else []) := rfl

/-- A keyword found in the summary is found in the full included text. -/
theorem found_in_summary_found_in_text (g : GeneratedResume) (s : String) (kw : String)
    (hs : g.summary = some s)
    (h : strContains (lowerStr s) (lowerStr kw) = true) :
    strContains (includedResumeText g) (lowerStr kw) = true := by
  unfold includedResumeText
  rw [hs]
  exact head_in_joined_text s _ _ _ (lowerStr kw) h

/-- A keyword found in the flattened skills text is found in the full
included text. -/
theorem found_in_skills_found_in_text (g : GeneratedResume) (kw : String)
    (h : strContains (skillsTextOf g) (lowerStr kw) = true) :
    strContains (includedResumeText g) (lowerStr kw) = true := by
  unfold skillsTextOf at h
  unfold includedResumeText
  cases hC : (g.skills.map (fun c => c.skills)).flatten with
  | nil =>
    rw [hC] at h
    have hkwnil : (lowerStr kw).data = [] := by
      by_contra hne
      cases hd : (lowerStr kw).data with
      | nil => exact hne hd
      | cons c0 t0 =>
        rw [show joinSpace [] = "" from rfl] at h
        unfold strContains at h
        rw [hd] at h
        simp [lowerStr, listContains, List.isPrefixOf] at h
    unfold strContains
    rw [hkwnil]
    exact listContains_empty_needle _
  | cons c0 t0 =>
    rw [hC] at h
    exact suffix_in_joined_text _ _ _ _ (lowerStr kw) (by simp) h

end Generator

/-- C9: in every JD match report the coverage score is
`round(100 * foundCount / max(totalKeywords, 1))` over the primary+secondary
keywords, a keyword counting as found exactly when it occurs
case-insensitively in the concatenated included résumé text; and a keyword
absent from that text has `found = false` and an empty `locations` list. -/
theorem C9_coverage_score_and_absent_keywords (rd : ResumeData) (jd : JDAnalysis)
    (g : GeneratedResume) (rm : RelevanceMap) :
    ((Generator.generateJDMatchReport rd jd g rm).coverageScore
      = jsRound (((((Generator.allJDKeywords jd).filter (fun kw =>
            strContains (Generator.includedResumeText g) (lowerStr kw))).length : ℚ)
          / ((max (Generator.allJDKeywords jd).length 1 : Nat) : ℚ)) * 100))
    ∧ ∀ entry ∈ (Generator.generateJDMatchReport rd jd g rm).keywordCoverage,
        strContains (Generator.includedResumeText g) (lowerStr entry.keyword) = false →
        entry.found = false ∧ entry.locations = [] := by
  constructor
  · have hcount : ((Generator.keywordCoverageOf jd g).filter (fun k => k.found)).length
        = ((Generator.allJDKeywords jd).filter (fun kw =>
            strContains (Generator.includedResumeText g) (lowerStr kw))).length := by
      unfold Generator.keywordCoverageOf
      rw [← List.countP_eq_length_filter, ← List.countP_eq_length_filter, List.countP_map]
      rfl
    show jsRound (((((Generator.keywordCoverageOf jd g).filter (fun k => k.found)).length : ℚ)
        / ((max (Generator.allJDKeywords jd).length 1 : Nat) : ℚ)) * 100) = _
    rw [hcount]
  · intro entry hentry hnf
    have hmem : entry ∈ (Generator.allJDKeywords jd).map (Generator.keywordEntryOf jd g) :=
      hentry
    rw [List.mem_map] at hmem
    obtain ⟨kw, hkw, hentryeq⟩ := hmem
    subst hentryeq
    rw [Generator.keywordEntryOf_keyword] at hnf
    refine ⟨?_, ?_⟩
    · rw [Generator.keywordEntryOf_found]
      exact hnf
    · rw [Generator.keywordEntryOf_locations]
      have hskills : strContains (Generator.skillsTextOf g) (lowerStr kw) = false := by
        by_contra hb
        rw [Bool.not_eq_false] at hb
        rw [Generator.found_in_skills_found_in_text g kw hb] at hnf
        exact absurd hnf (by simp)
      have hsummary : (match g.summary with
          | some s => if strContains (lowerStr s) (lowerStr kw) then [("summary" : String)]
              else []
          | none => ([] : List String)) = [] := by
        cases hs : g.summary with
        | none => rfl
        | some s =>
          have hfalse : strContains (lowerStr s) (lowerStr kw) = false := by
            by_contra hb
            rw [Bool.not_eq_false] at hb
            rw [Generator.found_in_summary_found_in_text g s kw hs hb] at hnf
            exact absurd hnf (by simp)
          simp [hfalse]
      rw [hsummary, hskills]
      simp

def c9JD : JDAnalysis :=
  ⟨"SRE", "DevOps Engineer", "Senior", "Enterprise", [], ["Kubernetes"], [], []⟩

def c9GenExp : GeneratedExperience :=
  { id := "e1", title := "Eng", company := "Acme",
    startDate := "May 2020", endDate := "Present", bullets := ["a"],
    relevanceScore := none,
    rewrittenBullets := [⟨"a", "Built the pipeline", [], false⟩],
    includedInResume := true }

/-- A résumé whose included text mentions Kubernetes nowhere. -/
def c9Resume : GeneratedResume :=
  { contact := ⟨"Bob", "b@x.co", some "1"⟩,
    summary := some "Cloud engineer",
    experiences := [c9GenExp],
    projects := [],
    education := [],
    skills := [⟨"Tools", ["Git"]⟩] }

def c9RD : ResumeData :=
  { contact := ⟨"Bob", "b@x.co", some "1"⟩,
    summary := none,
    experiences := [],
    projects := [],
    education := [],
    skills := [] }

def c9Map : RelevanceMap :=
  ⟨fun _ => none, fun _ => none, fun _ => none, 0⟩

/-- Witness for C9: the job keyword "Kubernetes" is absent from every
included text region, and its MatchReport entry has `found = false` and no
locations. -/
theorem C9_coverage_score_and_absent_keywords_witness :
    (Generator.keywordEntryOf c9JD c9Resume ("Kubernetes")
        ∈ (Generator.generateJDMatchReport c9RD c9JD c9Resume c9Map).keywordCoverage)
    ∧ strContains (Generator.includedResumeText c9Resume)
        (lowerStr (Generator.keywordEntryOf c9JD c9Resume ("Kubernetes")).keyword) = false
    ∧ (Generator.keywordEntryOf c9JD c9Resume ("Kubernetes")).found = false
    ∧ (Generator.keywordEntryOf c9JD c9Resume ("Kubernetes")).locations = [] :=
  ⟨by decide, by decide,
    ((C9_coverage_score_and_absent_keywords c9RD c9JD c9Resume c9Map).2
      (Generator.keywordEntryOf c9JD c9Resume ("Kubernetes")) (by decide) (by decide)).1,
    ((C9_coverage_score_and_absent_keywords c9RD c9JD c9Resume c9Map).2
      (Generator.keywordEntryOf c9JD c9Resume ("Kubernetes")) (by decide) (by decide)).2⟩
